import Mathlib

/-!
Shallow embedding of the tool-calling scripts of the `gpt-oss` repository
(`testing_kp/testing_kp.py`, `testing_kp/gpt_oss_ollama_weather.py`,
`testing_kp/gpt_oss_weather_demo.py`, `testing_kp/gpt_oss_local_demo.py`,
`testing_kp/test_gpt_oss_client.py`).

Python dictionaries are modelled as insertion-ordered association lists of
string keys, dynamically typed Python values as the inductive `JVal`, and
every external effect (the random module, the OpenWeatherMap HTTP call, the
pytz database, the wall clock, the operating system, the filesystem, the
chat-completion model) as an explicit environment value passed in.  Python
floats are modelled as rationals.  A Python function that can raise an
exception past its own body is modelled with `Except PyErr`.
-/

namespace GptOssSpec

/-- Python values that appear in tool arguments and in tool-result mappings:
`None`, strings, ints, floats (modelled as rationals), bools, lists, dicts. -/
inductive JVal where
  | null
  | s (v : String)
  | i (v : Int)
  | q (v : ℚ)
  | b (v : Bool)
  | arr (v : List JVal)
  | obj (v : List (String × JVal))

/-- A tool-result mapping: an insertion-ordered dict with string keys. -/
abbrev ToolResult := List (String × JVal)

/-- The Python comparison `x == "lit"` for a dynamically typed `x` (a value of
a non-string type never equals a string). -/
def JVal.eqStr : JVal → String → Bool
  | .s v, w => v == w
  | _, _ => false

/-- The value of the `"status"` key of a result mapping, when it is a string. -/
def statusStr (r : ToolResult) : Option String :=
  match r.lookup "status" with
  | some (.s v) => some v
  | _ => none

/-- A Python exception that escapes a function body. -/
inductive PyErr where
  | typeError (msg : String)
deriving DecidableEq

/-- Python `str.title()`: capitalise each space-separated word.  (Python also
lowercases the rest of each word; the API descriptions this is applied to are
lowercase, and no claim inspects the difference.) -/
def pyTitle (s : String) : String :=
  String.intercalate " " ((s.splitOn " ").map String.capitalize)

/-- Python `round(x, 1)`.  (Python rounds floats half-to-even; the claims never
depend on the value, so half-up rounding of the exact rational is used.) -/
def round1 (x : ℚ) : ℚ := (round (x * 10) : ℚ) / 10

/-- Python `datetime.fromtimestamp(ts).strftime("%H:%M")`, with the local
timezone abstracted as UTC (no zero padding; no claim inspects the text). -/
def hhmm (ts : Int) : String :=
  toString (ts / 3600 % 24) ++ ":" ++ toString (ts / 60 % 60)

/-- Python `str.upper()`, character by character (ASCII uppercasing; the
inputs this is applied to are ASCII). -/
def pyUpper (s : String) : String := ⟨s.data.map Char.toUpper⟩

/-- Python list slicing `l[:n]`, including the negative-index case. -/
def pyTake {α : Type} (n : Int) (l : List α) : List α :=
  if 0 ≤ n then l.take n.toNat else l.take (l.length - (-n).toNat)

/-- The placeholder value that the scripts treat as "no API key configured". -/
def placeholderKey : String := "your_openweather_api_key_here"

/-- The guard `not OWM_API_KEY or OWM_API_KEY == 'your_openweather_api_key_here'`
of the weather functions: the key environment variable is unset (`None`),
empty (falsy), or equal to the placeholder. -/
def noValidKey : Option String → Bool
  | none => true
  | some s => s == "" || s == placeholderKey

namespace Weather

/-- The fields of the OpenWeatherMap current-weather JSON response that
`get_weather` reads.  A field is `none` when the corresponding key is missing
from the response (reading it then raises `KeyError`); the fields read with
`.get(..., 'N/A')` never raise. -/
structure OwmData where
  name : Option String
  sysCountry : Option String
  mainTemp : Option ℚ
  mainFeels : Option ℚ
  mainHumidity : Option Int
  mainPressure : Option Int
  weatherDesc : Option String
  windSpeed : Option ℚ
  windDeg : Option Int
  visibility : Option Int
  sysSunrise : Option Int
  sysSunset : Option Int

/-- Outcome of the single `requests.get` call of `get_weather`:
a `requests.exceptions.RequestException` (connection failure, timeout, or an
HTTP error status raised by `raise_for_status`), some other exception while
reading the response (e.g. invalid JSON), or a parsed JSON body. -/
inductive NetOutcome where
  | reqExc (msg : String)
  | otherExc (msg : String)
  | ok (data : OwmData)

/-- Environment of `get_weather`: the `OPENWEATHER_API_KEY` value and the
draws of the `random` module used by the simulated branch, plus the network
outcome used by the real branch. -/
structure WeatherEnv where
  key : Option String
  randTemp : ℕ
  randCond : ℕ
  randHum : Int
  net : NetOutcome

/-- The condition strings of the simulated branch of `get_weather`. -/
def simConditions : List String := ["sunny", "cloudy", "rainy", "snowy"]

/-- Reading of the required response fields, in the evaluation order of the
`weather_info` dict literal of `get_weather`; the first missing key raises
`KeyError` whose `str` is the quoted key name. -/
def owmFields (d : OwmData) :
    Except String (String × String × ℚ × ℚ × Int × Int × String × ℚ × Int × Int) :=
  match d.name with
  | none => .error "'name'"
  | some name =>
  match d.sysCountry with
  | none => .error "'country'"
  | some country =>
  match d.mainTemp with
  | none => .error "'temp'"
  | some temp =>
  match d.mainFeels with
  | none => .error "'feels_like'"
  | some feels =>
  match d.mainHumidity with
  | none => .error "'humidity'"
  | some hum =>
  match d.mainPressure with
  | none => .error "'pressure'"
  | some pres =>
  match d.weatherDesc with
  | none => .error "'description'"
  | some desc =>
  match d.windSpeed with
  | none => .error "'speed'"
  | some wind =>
  match d.sysSunrise with
  | none => .error "'sunrise'"
  | some sunrise =>
  match d.sysSunset with
  | none => .error "'sunset'"
  | some sunset =>
  .ok (name, country, temp, feels, hum, pres, desc, wind, sunrise, sunset)

/-- The `weather_info` mapping built by `get_weather` from a response, or the
`KeyError` text when a required key is missing. -/
def owmExtract (unit : JVal) (d : OwmData) : Except String ToolResult :=
  (owmFields d).map fun f =>
    [("location", .s (f.1 ++ ", " ++ f.2.1)),
     ("temperature", .q (round1 f.2.2.1)),
     ("feels_like", .q (round1 f.2.2.2.1)),
     ("humidity", .i f.2.2.2.2.1),
     ("pressure", .i f.2.2.2.2.2.1),
     ("unit", .s (if JVal.eqStr unit "celsius" then "°C" else "°F")),
     ("conditions", .s (pyTitle f.2.2.2.2.2.2.1)),
     ("wind_speed", .q f.2.2.2.2.2.2.2.1),
     ("wind_direction", match d.windDeg with | some v => .i v | none => .s "N/A"),
     ("visibility", match d.visibility with | some v => .i v | none => .s "N/A"),
     ("sunrise", .s (hhmm f.2.2.2.2.2.2.2.2.1)),
     ("sunset", .s (hhmm f.2.2.2.2.2.2.2.2.2)),
     ("status", .s "success")]

/-- The `get_weather` tool function, identical in `testing_kp.py`,
`gpt_oss_ollama_weather.py` and `gpt_oss_weather_demo.py`.  Returns the result
mapping together with the number of HTTP requests performed. -/
def get_weather (location unit : JVal) (env : WeatherEnv) : ToolResult × ℕ :=
  if noValidKey env.key then
    let t : ℚ := env.randTemp
    let temp : ℚ := if JVal.eqStr unit "fahrenheit" then t * 9 / 5 + 32 else t
    ([("location", location),
      ("temperature", .q temp),
      ("unit", .s (if JVal.eqStr unit "fahrenheit" then "°F" else "°C")),
      ("conditions", .s (pyTitle (simConditions.getD env.randCond "sunny"))),
      ("humidity", .i env.randHum),
      ("note", .s "This is simulated data. Please add a valid OpenWeatherMap API key."),
      ("status", .s "simulated")], 0)
  else
    match env.net with
    | .reqExc m =>
        ([("location", location),
          ("error", .s ("Network error: " ++ m)),
          ("status", .s "error")], 1)
    | .otherExc m =>
        ([("location", location),
          ("error", .s ("Unexpected error: " ++ m)),
          ("status", .s "error")], 1)
    | .ok d =>
        match owmExtract unit d with
        | .ok r => (r, 1)
        | .error e =>
            ([("location", location),
              ("error", .s ("Invalid location or API response: " ++ e)),
              ("status", .s "error")], 1)

/-- The abbreviation table of `get_current_time`. -/
def timezone_mapping : List (String × String) :=
  [("EST", "US/Eastern"), ("PST", "US/Pacific"), ("CST", "US/Central"),
   ("MST", "US/Mountain"), ("GMT", "GMT"), ("UTC", "UTC"),
   ("JST", "Asia/Tokyo"), ("CET", "Europe/Paris"), ("BST", "Europe/London")]

/-- What `datetime.now(tz)` renders for a given zone: the formatted time, the
timezone abbreviation, the UTC offset, the weekday name and the DST flag. -/
structure TimeInfo where
  formatted : String
  abbr : String
  utcOffset : String
  dayOfWeek : String
  isDst : Bool

/-- Environment of `get_current_time`: the set of names the pytz database
accepts (`pytz.timezone` raises `UnknownTimeZoneError` otherwise) and the
wall clock per zone. -/
structure TimeEnv where
  knownZones : List String
  clock : String → TimeInfo

/-- The `get_current_time` tool function, identical in `testing_kp.py`,
`gpt_oss_ollama_weather.py` and `gpt_oss_weather_demo.py`.  A non-string
argument makes `timezone.upper()` raise `AttributeError`, which the final
generic handler converts to an error mapping. -/
def get_current_time (timezone : JVal) (env : TimeEnv) : ToolResult :=
  match timezone with
  | .s tzs =>
    let tz_name := (timezone_mapping.lookup (pyUpper tzs)).getD tzs
    if env.knownZones.contains tz_name then
      let t := env.clock tz_name
      [("current_time", .s t.formatted),
       ("timezone", .s tz_name),
       ("timezone_abbr", .s t.abbr),
       ("utc_offset", .s t.utcOffset),
       ("day_of_week", .s t.dayOfWeek),
       ("is_dst", .b t.isDst),
       ("status", .s "success")]
    else
      [("timezone", .s tzs),
       ("error", .s ("Unknown timezone: " ++ tzs)),
       ("available_timezones_sample",
        .arr [.s "UTC", .s "US/Eastern", .s "Europe/London", .s "Asia/Tokyo"]),
       ("status", .s "error")]
  | other =>
    [("timezone", other),
     ("error", .s "Error getting time: argument has no attribute upper"),
     ("status", .s "error")]

end Weather

/-- One entry of the OpenWeatherMap 5-day forecast list (`data['list'][i]`)
as read by the forecast functions.  The fields the code reads (all present in
well-formed responses) are carried directly; `dt` is the Unix timestamp. -/
structure FItem where
  dt : ℕ
  temp : ℚ
  desc : String
  humidity : Int
  windSpeed : ℚ
  weatherId : Int
  weatherMain : String

/-- The `%Y-%m-%d` day key of `datetime.fromtimestamp(item['dt'])`, abstracted
as the day index since the epoch (injective on calendar dates; the local
timezone offset of `fromtimestamp` is abstracted as zero). -/
def fDay (it : FItem) : ℕ := it.dt / 86400

/-- The `.hour` of `datetime.fromtimestamp(item['dt'])` (same abstraction). -/
def fHour (it : FItem) : ℕ := it.dt % 86400 / 3600

/-- Outcome of the single `requests.get` call of `get_weather_forecast`:
a `RequestException`, a `KeyError` while reading the body, some other
exception, or a well-formed body (city name, country, coordinates, list). -/
inductive ForecastNet where
  | reqExc (msg : String)
  | malformed (msg : String)
  | otherExc (msg : String)
  | ok (cityName cityCountry : String) (lat lon : ℚ) (items : List FItem)

/-- Environment of `get_weather_forecast`: the API key, `datetime.now()` as a
day index, the per-iteration draws of the `random` module of the simulated
branch, and the network outcome of the real branch. -/
structure ForecastEnv where
  key : Option String
  baseDay : ℕ
  simTemp : ℕ → ℚ
  simCond : ℕ → ℕ
  simHum : ℕ → Int
  simWind : ℕ → ℚ
  net : ForecastNet

/-- The condition strings of the simulated forecast branch. -/
def simForecastConds : List String :=
  ["Clear Sky", "Scattered Clouds", "Light Rain", "Heavy Rain", "Thunderstorm"]

/-- The i-th simulated forecast entry: `base_date + timedelta(days=i)` rendered
through its day index, plus the random draws.  Shared verbatim by the
simulated branches of all three scripts. -/
def simForecast (env : ForecastEnv) (i : ℕ) : JVal :=
  .obj [("date", .i (Int.ofNat (env.baseDay + i))),
        ("temperature", .q (round1 (env.simTemp i))),
        ("conditions", .s (simForecastConds.getD (env.simCond i) "Clear Sky")),
        ("humidity", .i (env.simHum i)),
        ("wind_speed", .q (round1 (env.simWind i))),
        ("simulated", .b true)]

/-- The simulated-branch result mapping of `get_weather_forecast` (identical
in all three scripts), for an integer `days` argument. -/
def simForecastResult (location : JVal) (d : Int) (env : ForecastEnv) : ToolResult :=
  [("location", location),
   ("forecasts", .arr ((List.range d.toNat).map (simForecast env))),
   ("note", .s "This is simulated forecast data. Please add a valid OpenWeatherMap API key."),
   ("status", .s "simulated")]

namespace TestingKp

/-- The sort key `|hour - 14|` used to pick the forecast closest to 2 PM. -/
def hourKey (it : FItem) : ℕ := ((fHour it : Int) - 14).natAbs

/-- Python `min(l, key=f)` over a nonempty list: keeps the current best and
replaces it only on a strictly smaller key, so the first minimum wins. -/
def pyMinBy (f : FItem → ℕ) : FItem → List FItem → FItem
  | best, [] => best
  | best, x :: rest => if f x < f best then pyMinBy f x rest else pyMinBy f best rest

/-- Python `min(l, key=f)` (returns `none` only on the empty list, where the
Python call would raise; groups below are never empty). -/
def pyMin (f : FItem → ℕ) : List FItem → Option FItem
  | [] => none
  | x :: rest => some (pyMinBy f x rest)

/-- Appending one item to an insertion-ordered grouping dict
(`forecasts_by_day[day_key].append(...)` with `setdefault`-style creation). -/
def addToGroup (g : List (ℕ × List FItem)) (k : ℕ) (it : FItem) :
    List (ℕ × List FItem) :=
  match g with
  | [] => [(k, [it])]
  | (k1, l) :: rest =>
      if k1 = k then (k1, l ++ [it]) :: rest else (k1, l) :: addToGroup rest k it

/-- The `forecasts_by_day` dict of `get_weather_forecast` in `testing_kp.py`:
groups the forecast list by day key, preserving first-seen key order and
per-day item order. -/
def groupByDay (items : List FItem) : List (ℕ × List FItem) :=
  items.foldl (fun g it => addToGroup g (fDay it) it) []

/-- Ordering of `sorted(forecasts_by_day.items())`: dict keys are distinct, so
Python's tuple comparison only ever compares the day keys. -/
def keyLE (a b : ℕ × List FItem) : Prop := a.1 ≤ b.1

instance : DecidableRel keyLE := fun a b => Nat.decLe a.1 b.1

/-- The selection of `get_weather_forecast` in `testing_kp.py`: group by day,
sort the days, keep the first `days` of them, and from each day's forecasts
take the one closest to 14:00. -/
def tkSelect (items : List FItem) (d : Int) : List FItem :=
  (pyTake d (List.insertionSort keyLE (groupByDay items))).filterMap
    (fun p => pyMin hourKey p.2)

/-- One entry of the `forecasts` list built by `testing_kp.py`. -/
def mkTkForecast (it : FItem) : JVal :=
  .obj [("date", .i (Int.ofNat (fDay it))),
        ("time", .s (hhmm (Int.ofNat it.dt))),
        ("temperature", .q (round1 it.temp)),
        ("conditions", .s (pyTitle it.desc)),
        ("humidity", .i it.humidity),
        ("wind_speed", .q it.windSpeed),
        ("weather_id", .i it.weatherId),
        ("weather_main", .s it.weatherMain)]

/-- The `get_weather_forecast` tool function of `testing_kp.py` (lines
187-336).  There is no clamping of `days` anywhere: the simulated branch runs
`for i in range(days)` directly, and the API branch requests
`min(days * 8, 40)` intervals and slices the sorted day list with `[:days]`.
A non-integer `days` raises `TypeError` at `range(days)` in the simulated
branch, which sits before the `try` and so propagates; in the API branch the
exception is inside the `try` and the generic handler converts it.  Returns
the result mapping and the number of HTTP requests performed. -/
def get_weather_forecast (location days : JVal) (env : ForecastEnv) :
    Except PyErr (ToolResult × ℕ) :=
  if noValidKey env.key then
    match days with
    | .i d => .ok (simForecastResult location d env, 0)
    | _ => .error (.typeError "argument of range is not an int")
  else
    match days with
    | .i d =>
      match env.net with
      | .reqExc m =>
          .ok ([("location", location),
                ("error", .s ("Network error: " ++ m)),
                ("status", .s "error")], 1)
      | .malformed m =>
          .ok ([("location", location),
                ("error", .s ("Invalid location or API response: " ++ m)),
                ("status", .s "error")], 1)
      | .otherExc m =>
          .ok ([("location", location),
                ("error", .s ("Error getting forecast: " ++ m)),
                ("status", .s "error")], 1)
      | .ok name country lat lon items =>
          let chosen := tkSelect items d
          .ok ([("location", .s (name ++ ", " ++ country)),
                ("coordinates", .obj [("lat", .q lat), ("lon", .q lon)]),
                ("forecasts", .arr (chosen.map mkTkForecast)),
                ("status", .s "success"),
                ("forecast_count", .i (Int.ofNat chosen.length)),
                ("api_forecast_count", .i (Int.ofNat items.length))], 1)
    | _ =>
      .ok ([("location", location),
            ("error", .s "Error getting forecast: unsupported operand"),
            ("status", .s "error")], 0)

end TestingKp

namespace OllamaWeather

/-- The selection loop of `get_weather_forecast` in
`gpt_oss_ollama_weather.py` (and the identical copy in
`gpt_oss_weather_demo.py`): walk `data['list'][:days*8]`, take the first
forecast of each new day whose hour is at least 12, and stop as soon as
`len(forecasts) >= days`. -/
def ollamaSelect (days : Int) : List FItem → List ℕ → List FItem → List FItem
  | [], _, acc => acc
  | it :: rest, processed, acc =>
    if fDay it ∉ processed ∧ 12 ≤ fHour it then
      let acc1 := acc ++ [it]
      if days ≤ (acc1.length : Int) then acc1
      else ollamaSelect days rest (fDay it :: processed) acc1
    else ollamaSelect days rest processed acc

/-- One entry of the `forecasts` list built by the Ollama/demo variant. -/
def mkOllamaForecast (it : FItem) : JVal :=
  .obj [("date", .i (Int.ofNat (fDay it))),
        ("time", .s (hhmm (Int.ofNat it.dt))),
        ("temperature", .q (round1 it.temp)),
        ("conditions", .s (pyTitle it.desc)),
        ("humidity", .i it.humidity),
        ("wind_speed", .q it.windSpeed)]

/-- The `get_weather_forecast` tool function of `gpt_oss_ollama_weather.py`
(lines 193-285) and its identical copy in `gpt_oss_weather_demo.py` (lines
208-300).  Like the `testing_kp.py` variant it never clamps `days`; its API
branch has a single generic `except Exception` handler. -/
def get_weather_forecast (location days : JVal) (env : ForecastEnv) :
    Except PyErr (ToolResult × ℕ) :=
  if noValidKey env.key then
    match days with
    | .i d => .ok (simForecastResult location d env, 0)
    | _ => .error (.typeError "argument of range is not an int")
  else
    match days with
    | .i d =>
      match env.net with
      | .reqExc m =>
          .ok ([("location", location),
                ("error", .s ("Error getting forecast: " ++ m)),
                ("status", .s "error")], 1)
      | .malformed m =>
          .ok ([("location", location),
                ("error", .s ("Error getting forecast: " ++ m)),
                ("status", .s "error")], 1)
      | .otherExc m =>
          .ok ([("location", location),
                ("error", .s ("Error getting forecast: " ++ m)),
                ("status", .s "error")], 1)
      | .ok name country _lat _lon items =>
          let chosen := ollamaSelect d (pyTake (d * 8) items) [] []
          .ok ([("location", .s (name ++ ", " ++ country)),
                ("forecasts", .arr (chosen.map mkOllamaForecast)),
                ("status", .s "success")], 1)
    | _ =>
      .ok ([("location", location),
            ("error", .s "Error getting forecast: unsupported operand"),
            ("status", .s "error")], 0)

end OllamaWeather

/-- An argument mapping decoded from the model's JSON tool-call arguments. -/
abbrev Args := List (String × JVal)

/-- The keyword names of an argument mapping. -/
def argNames (args : Args) : List String := args.map Prod.fst

/-- Python keyword binding `f(**kwargs)` against a signature with the given
required and optional (defaulted) parameters: an unexpected keyword or a
missing required keyword raises `TypeError` at the call site, before the
function body runs.  No JSON-schema validation happens anywhere. -/
def bindArgs (required optional : List String) (args : Args) : Except PyErr Unit :=
  if (argNames args).all (fun k => required.contains k || optional.contains k) then
    if required.all (fun k => (argNames args).contains k) then .ok ()
    else .error (.typeError "missing a required keyword argument")
  else .error (.typeError "got an unexpected keyword argument")

/-- Value of keyword `k` in an argument mapping, falling back to the Python
default of that parameter (only consulted when binding succeeded and `k` is
optional, or when `k` is required and hence present). -/
def lookupArg (args : Args) (k : String) (dflt : JVal) : JVal :=
  (args.lookup k).getD dflt

/-- The combined external environment a dispatched tool call runs against. -/
structure ToolEnv where
  weather : Weather.WeatherEnv
  time : Weather.TimeEnv
  forecast : ForecastEnv

namespace WeatherDemo

/-- The `execute_tool_call` dispatcher of `gpt_oss_weather_demo.py` (lines
362-373): three name checks, then the unknown-tool error mapping.  The body
has no `try`, so a `TypeError` raised while binding the arguments propagates
to the caller. -/
def execute_tool_call (tool_name : String) (arguments : Args) (env : ToolEnv) :
    Except PyErr ToolResult :=
  if tool_name = "get_weather" then
    match bindArgs ["location"] ["unit"] arguments with
    | .error e => .error e
    | .ok _ =>
        .ok (Weather.get_weather (lookupArg arguments "location" .null)
              (lookupArg arguments "unit" (.s "celsius")) env.weather).1
  else if tool_name = "get_current_time" then
    match bindArgs [] ["timezone"] arguments with
    | .error e => .error e
    | .ok _ =>
        .ok (Weather.get_current_time (lookupArg arguments "timezone" (.s "UTC")) env.time)
  else if tool_name = "get_weather_forecast" then
    match bindArgs ["location"] ["days"] arguments with
    | .error e => .error e
    | .ok _ =>
        match OllamaWeather.get_weather_forecast (lookupArg arguments "location" .null)
                (lookupArg arguments "days" (.i 5)) env.forecast with
        | .error e => .error e
        | .ok r => .ok r.1
  else
    .ok [("error", .s ("Unknown tool: " ++ tool_name)), ("status", .s "error")]

end WeatherDemo

namespace TestingKp

/-- The inline dispatch inside `assistant_with_tools` of `testing_kp.py`
(lines 450-457; the Ollama and local-demo scripts use the same shape):
`function_response = None`, then an `if`/`elif` chain over the three known
names.  An unknown name leaves `function_response` as `None` — no error
mapping is produced and no tool message will be appended. -/
def inlineDispatch (function_name : String) (function_args : Args) (env : ToolEnv) :
    Except PyErr (Option ToolResult) :=
  if function_name = "get_weather" then
    match bindArgs ["location"] ["unit"] function_args with
    | .error e => .error e
    | .ok _ =>
        .ok (some (Weather.get_weather (lookupArg function_args "location" .null)
              (lookupArg function_args "unit" (.s "celsius")) env.weather).1)
  else if function_name = "get_current_time" then
    match bindArgs [] ["timezone"] function_args with
    | .error e => .error e
    | .ok _ =>
        .ok (some (Weather.get_current_time
              (lookupArg function_args "timezone" (.s "UTC")) env.time))
  else if function_name = "get_weather_forecast" then
    match bindArgs ["location"] ["days"] function_args with
    | .error e => .error e
    | .ok _ =>
        match TestingKp.get_weather_forecast (lookupArg function_args "location" .null)
                (lookupArg function_args "days" (.i 5)) env.forecast with
        | .error e => .error e
        | .ok r => .ok (some r.1)
  else
    .ok none

/-- One tool call carried by a model response. -/
structure ToolCall where
  id : String
  fname : String
  args : Args

/-- A model response message: optional text content and a (possibly empty)
list of requested tool calls. -/
structure ModelMsg where
  content : Option String
  tool_calls : List ToolCall

/-- A message of the conversation list sent to the model. -/
inductive ChatMsg where
  | system (s : String)
  | user (s : String)
  | assistant (m : ModelMsg)
  | tool (tool_call_id : String) (name : String) (content : ToolResult)

/-- Whether a conversation message is a tool-result message. -/
def isToolMsg : ChatMsg → Bool
  | .tool _ _ _ => true
  | _ => false

/-- The id of a tool-result message, when it is one. -/
def toolMsgId : ChatMsg → Option String
  | .tool id _ _ => some id
  | _ => none

/-- One chat-completion request as sent by `assistant_with_tools`: whether
the `tools` schema was attached, and the message list sent. -/
structure SentRequest where
  withTools : Bool
  messages : List ChatMsg

/-- Environment of one conversation turn: the model's first and second
responses, and the external environment of the i-th dispatched tool call. -/
structure ChatEnv where
  first : ModelMsg
  second : ModelMsg
  toolEnvs : ℕ → ToolEnv

/-- The system prompt of `assistant_with_tools` (text abbreviated; no claim
inspects it). -/
def sysPrompt : String := "You are a helpful weather and time assistant."

/-- The error string returned by the outer `except Exception` handler of
`assistant_with_tools`. -/
def turnErrString : PyErr → String
  | .typeError m =>
      "❌ Error: " ++ m ++ ". Please check your API keys and internet connection."

/-- The `for tool_call in response_message.tool_calls` loop of
`assistant_with_tools`: dispatch each call in listed order; on an exception
the loop unwinds to the outer handler; a produced mapping is appended as a
tool message only when it is truthy (`if function_response:`), so unknown
names (dispatch result `None`) append nothing. -/
def runToolCalls (env : ChatEnv) (idx : ℕ) : List ToolCall → Except PyErr (List ChatMsg)
  | [] => .ok []
  | tc :: rest =>
    match inlineDispatch tc.fname tc.args (env.toolEnvs idx) with
    | .error e => .error e
    | .ok none => runToolCalls env (idx + 1) rest
    | .ok (some r) =>
      match runToolCalls env (idx + 1) rest with
      | .error e => .error e
      | .ok tail => .ok (if r.isEmpty then tail else .tool tc.id tc.fname r :: tail)

/-- The `assistant_with_tools` conversation turn of `testing_kp.py` (lines
407-481; `gpt_oss_ollama_weather.py` lines 356-431 are identical in shape):
send system+user with the tool schema; if the response carries no tool calls
its content is the answer; otherwise run the calls, append the produced tool
messages, send a second request without the schema, and answer with its
content; any exception yields the handler's error string after only the
first request.  Returns the answer and the list of requests sent. -/
def assistant_with_tools (user_message : String) (env : ChatEnv) :
    Option String × List SentRequest :=
  let msgs0 : List ChatMsg := [.system sysPrompt, .user user_message]
  let req1 : SentRequest := ⟨true, msgs0⟩
  let m := env.first
  if m.tool_calls.isEmpty then
    (m.content, [req1])
  else
    match runToolCalls env 0 m.tool_calls with
    | .error e => (some (turnErrString e), [req1])
    | .ok toolMsgs =>
      let msgs2 := (msgs0 ++ [.assistant m]) ++ toolMsgs
      (env.second.content, [req1, ⟨false, msgs2⟩])

end TestingKp

namespace LocalDemo

/-- The `draft_email` tool function of `gpt_oss_local_demo.py` (lines 36-75).
`content.strip()` raises `AttributeError` on a non-string, which the generic
handler converts to an error mapping; otherwise the drafted mapping is
returned with status `"drafted"`. -/
def draft_email (recipient subject : JVal) (content : JVal) (cc : Option String) :
    ToolResult :=
  match content with
  | .s c =>
    [("recipient", recipient),
     ("subject", subject),
     ("content", .s c.trim),
     ("cc", match cc with | some v => .s v | none => .null),
     ("status", .s "drafted")]
  | _ =>
    [("error", .s "Error drafting email: content has no attribute strip"),
     ("status", .s "error")]

/-- Environment of `open_email_client`: `platform.system().lower()` and
whether the subprocess that opens the mail client exits successfully. -/
structure OsEnv where
  system : String
  subprocessOk : Bool

/-- The `open_email_client` tool function of `gpt_oss_local_demo.py` (lines
77-135).  `urllib.parse.quote` on a non-string raises, caught by the generic
handler; an unsupported OS and a failing subprocess each return their own
error mapping; success returns status `"email_client_opened"`. -/
def open_email_client (recipient subject content : JVal) (cc : Option String)
    (env : OsEnv) : ToolResult :=
  match subject, content with
  | .s _, .s _ =>
    if env.system = "windows" ∨ env.system = "darwin" ∨ env.system = "linux" then
      if env.subprocessOk then
        [("recipient", recipient),
         ("subject", subject),
         ("status", .s "email_client_opened")]
      else
        [("error", .s "Failed to open email client: command failed"),
         ("status", .s "error")]
    else
      [("error", .s ("Unsupported operating system: " ++ env.system)),
       ("status", .s "error")]
  | _, _ =>
    [("error", .s "Unexpected error opening email client: quote expects a string"),
     ("status", .s "error")]

/-- What the `platform`/`sys` modules report for `get_system_info`. -/
structure SysInfo where
  os : String
  osVersion : String
  arch : String
  processor : String
  pythonVersion : String

/-- The `get_system_info` tool function of `gpt_oss_local_demo.py` (lines
137-160; the `except Exception` branch, unreachable for these library calls,
would return a status `"error"` mapping). -/
def get_system_info (info : SysInfo) : ToolResult :=
  [("operating_system", .s info.os),
   ("os_version", .s info.osVersion),
   ("architecture", .s info.arch),
   ("processor", .s info.processor),
   ("python_version", .s info.pythonVersion),
   ("status", .s "success")]

end LocalDemo

namespace TestClient

/-- A message of the interactive chat of `test_gpt_oss_client.py`. -/
inductive CMsg where
  | system (s : String)
  | user (s : String)
  | assistant (s : String)
deriving DecidableEq

/-- A stripped console input: one of the quit words, empty, or text. -/
inductive ChatInput where
  | quitCmd
  | empty
  | text (s : String)

/-- A chat-completion outcome: the error dict path or assistant content. -/
inductive ChatResp where
  | err (msg : String)
  | ok (content : String)

/-- The system prompt of `interactive_chat` (text abbreviated; no claim
inspects it). -/
def chatSystemPrompt : String := "You are a helpful AI assistant running on GPT OSS."

/-- One iteration of the `while True` loop of `interactive_chat` (lines
144-175): quit breaks, empty input continues, otherwise the user message is
appended, the assistant reply is appended only when the response is not an
error, and then — unconditionally — the list is cut to
`conversation[:1] + conversation[-8:]` whenever its length exceeds 10. -/
def chatStep (conversation : List CMsg) (inp : ChatInput) (resp : ChatResp) :
    List CMsg :=
  match inp with
  | .quitCmd => conversation
  | .empty => conversation
  | .text s =>
    let c1 := conversation ++ [.user s]
    let c2 : List CMsg := match resp with
      | .err _ => c1
      | .ok a => c1 ++ [.assistant a]
    if 10 < c2.length then c2.take 1 ++ c2.drop (c2.length - 8) else c2

/-- The conversation after a sequence of loop iterations, starting from the
single system message. -/
def chatRun (steps : List (ChatInput × ChatResp)) : List CMsg :=
  steps.foldl (fun c p => chatStep c p.1 p.2) [.system chatSystemPrompt]

/-- The `load_deployment_info` function (lines 177-186): read the platform's
JSON file if it exists, else print a warning and return the empty dict. -/
def load_deployment_info (awsFile azureFile : Option (List (String × String)))
    (p : String) : List (String × String) :=
  match (if p = "aws" then awsFile else if p = "azure" then azureFile else none) with
  | some entries => entries
  | none => []

/-- The condition `if deployment_info and "api_endpoint" in deployment_info`
of `main`, returning the endpoint it selects. -/
def infoEndpoint (info : List (String × String)) : Option String :=
  if info.isEmpty then none else info.lookup "api_endpoint"

/-- How `main` ends its endpoint-resolution phase: with an endpoint, with the
platform-specific error message (`--platform` given but no usable file), or
with the usage-help block (auto-detection found nothing).  In the two abort
cases `main` returns before constructing the client, so no server is ever
contacted. -/
inductive Resolution where
  | use (endpoint : String)
  | abortPlatform (p : String)
  | abortUsage

/-- Python truthiness of an optional string variable (`None` and `""` are
falsy), as tested by `if args.endpoint:`, `elif args.platform:` and
`if not endpoint:` in `main`. -/
def pyTruthy : Option String → Bool
  | none => false
  | some s => !(s == "")

/-- The endpoint-resolution logic of `main` (lines 215-243): a truthy
`--endpoint` wins (`if args.endpoint:`, so an empty string falls through); a
truthy `--platform` consults only its own file, taking its `api_endpoint`
value — even an empty one — or aborting with the platform error; otherwise
the auto-detect loop tries `aws` then `azure`, breaks at the first file that
exists and carries an `api_endpoint` key, and afterwards `if not endpoint:`
aborts with the usage help when the loop found nothing or the taken value is
empty. -/
def resolveEndpoint (argEndpoint argPlatform : Option String)
    (awsFile azureFile : Option (List (String × String))) : Resolution :=
  if pyTruthy argEndpoint then .use (argEndpoint.getD "")
  else if pyTruthy argPlatform then
    match infoEndpoint (load_deployment_info awsFile azureFile (argPlatform.getD "")) with
    | some e => .use e
    | none => .abortPlatform (argPlatform.getD "")
  else
    let endpoint : Option String :=
      match infoEndpoint (load_deployment_info awsFile azureFile "aws") with
      | some e => some e
      | none => infoEndpoint (load_deployment_info awsFile azureFile "azure")
    if pyTruthy endpoint then .use (endpoint.getD "") else .abortUsage

end TestClient

/-! Extractors over result mappings, and concrete example environments used by
witnesses and counterexamples. -/

/-- The `date` field of one forecast entry. -/
def entryDate : JVal → Option JVal
  | .obj f => f.lookup "date"
  | _ => none

/-- The dates of the `forecasts` list of a result mapping. -/
def forecastDates (r : ToolResult) : List JVal :=
  match r.lookup "forecasts" with
  | some (.arr l) => l.filterMap entryDate
  | _ => []

/-- The number of entries of the `forecasts` list of a result mapping. -/
def forecastCount (r : ToolResult) : ℕ :=
  match r.lookup "forecasts" with
  | some (.arr l) => l.length
  | _ => 0

/-- The length of the `available_timezones_sample` list of a result mapping. -/
def sampleLen (r : ToolResult) : ℕ :=
  match r.lookup "available_timezones_sample" with
  | some (.arr l) => l.length
  | _ => 0

/-- The status values that actually occur across the tool functions of the
repository: the three of the weather scripts plus the two success statuses of
the email functions of `gpt_oss_local_demo.py`. -/
def extendedStatuses : List String :=
  ["success", "simulated", "error", "drafted", "email_client_opened"]

/-- The ids of the tool-result messages of a conversation, in order. -/
def toolIds (msgs : List TestingKp.ChatMsg) : List String :=
  msgs.filterMap TestingKp.toolMsgId

/-- Invariant of the `forecasts_by_day` grouping: day keys are distinct, every
group is nonempty, and every item sits under its own day key. -/
def GoodGroups (g : List (ℕ × List FItem)) : Prop :=
  (g.map Prod.fst).Nodup ∧ ∀ p ∈ g, p.2 ≠ [] ∧ ∀ it ∈ p.2, fDay it = p.1

/-- A fixed rendering of the wall clock, for example environments. -/
def egTimeInfo : Weather.TimeInfo :=
  ⟨"2025-01-01 12:00:00", "UTC", "+0000", "Wednesday", false⟩

/-- A pytz database holding exactly the zones the abbreviation table maps to. -/
def egTimeEnv : Weather.TimeEnv :=
  ⟨["UTC", "US/Eastern", "US/Pacific", "US/Central", "US/Mountain", "GMT",
    "Asia/Tokyo", "Europe/Paris", "Europe/London"], fun _ => egTimeInfo⟩

/-- A well-formed current-weather response body. -/
def egOwmData : Weather.OwmData :=
  ⟨some "Tokyo", some "JP", some 21, some 20, some 60, some 1012,
   some "clear sky", some 3, some 90, some 10000, some 21600, some 61200⟩

/-- A weather environment with no API key configured. -/
def egWeatherEnvNoKey : Weather.WeatherEnv := ⟨none, 15, 0, 50, .ok egOwmData⟩

/-- A weather environment with an API key whose request times out. -/
def egWeatherEnvKey : Weather.WeatherEnv :=
  ⟨some "k123", 15, 0, 50, .reqExc "connection timed out"⟩

/-- A forecast environment with no API key configured. -/
def egForecastEnvNoKey : ForecastEnv :=
  ⟨none, 20000, fun _ => 20, fun _ => 0, fun _ => 50, fun _ => 3, .reqExc "unused"⟩

/-- A small forecast response list: two afternoon slots on two distinct days. -/
def egForecastItems : List FItem :=
  [⟨20454 * 86400 + 12 * 3600, 18, "clear sky", 55, 2, 800, "Clear"⟩,
   ⟨20455 * 86400 + 15 * 3600, 17, "light rain", 70, 4, 500, "Rain"⟩]

/-- A forecast environment with an API key and a well-formed response. -/
def egForecastEnvKey : ForecastEnv :=
  ⟨some "k123", 20000, fun _ => 20, fun _ => 0, fun _ => 50, fun _ => 3,
   .ok "Paris" "FR" 48 2 egForecastItems⟩

/-- A tool environment with no weather API key configured. -/
def egToolEnv : ToolEnv := ⟨egWeatherEnvNoKey, egTimeEnv, egForecastEnvNoKey⟩

/-- A turn environment whose first response requests one unknown tool. -/
def egUnknownCallEnv : TestingKp.ChatEnv :=
  ⟨⟨none, [⟨"call_1", "get_stock_price", []⟩]⟩,
   ⟨some "final answer", []⟩, fun _ => egToolEnv⟩

/-- A turn environment whose first response requests `get_weather` with a
well-formed argument mapping. -/
def egGoodCallEnv : TestingKp.ChatEnv :=
  ⟨⟨none, [⟨"call_1", "get_weather", [("location", .s "Tokyo")]⟩]⟩,
   ⟨some "final answer", []⟩, fun _ => egToolEnv⟩

/-- A turn environment whose first response requests `get_weather` with a
misspelled keyword (`units`), so binding raises `TypeError`. -/
def egBadCallEnv : TestingKp.ChatEnv :=
  ⟨⟨none, [⟨"call_1", "get_weather",
      [("location", .s "Tokyo"), ("units", .s "celsius")]⟩]⟩,
   ⟨some "final answer", []⟩, fun _ => egToolEnv⟩

/-- Five interactive-chat iterations: four that append user and assistant
messages, then one whose chat completion returns the error dict. -/
def cexChatSteps : List (TestClient.ChatInput × TestClient.ChatResp) :=
  [(.text "q1", .ok "a1"), (.text "q2", .ok "a2"), (.text "q3", .ok "a3"),
   (.text "q4", .ok "a4"), (.text "q5", .err "server unreachable")]

/-! Helper lemmas. -/

/-- A string with a nonempty prefix is nonempty. -/
theorem prefix_append_ne_empty (a b : String) (ha : a ≠ "") : a ++ b ≠ "" := by
  intro h
  apply ha
  apply String.ext
  have hd := congrArg String.data h
  rw [String.data_append] at hd
  exact (List.append_eq_nil.mp hd).1

/-- A successful field extraction yields the literal success mapping, whose
status is `"success"`. -/
theorem owmExtract_ok_status (unit : JVal) (d : Weather.OwmData) (r : ToolResult)
    (h : Weather.owmExtract unit d = .ok r) : statusStr r = some "success" := by
  unfold Weather.owmExtract at h
  cases hf : Weather.owmFields d with
  | error e => rw [hf] at h; simp [Except.map] at h
  | ok f => rw [hf] at h; simp only [Except.map, Except.ok.injEq] at h; subst h; rfl

/-! Claim C1. -/

/-- C1 counterexample.  The claim says that for every unknown tool name the
dispatch returns a mapping whose status is `"error"`.  In the inline dispatch
of `assistant_with_tools` in `testing_kp.py` (also the Ollama and local-demo
scripts), the unknown name `"get_stock_price"` leaves `function_response` as
`None`: no mapping of any kind is produced, refuting the claim there. -/
theorem c1_unknown_tool_dispatch_cex :
    TestingKp.inlineDispatch "get_stock_price" [] egToolEnv = .ok none ∧
    (Except.ok (none : Option ToolResult) : Except PyErr (Option ToolResult)) ≠
      .ok (some [("error", .s "Unknown tool: get_stock_price"), ("status", .s "error")]) :=
  ⟨rfl, by simp⟩

/-- C1 (amended): the `execute_tool_call` dispatcher of
`gpt_oss_weather_demo.py` does return, for every unknown name and every
argument mapping, exactly the mapping
`{"error": "Unknown tool: <name>", "status": "error"}` — in particular for
`"get_stock_price"` — while the inline dispatch of `assistant_with_tools`
instead produces no result mapping at all for unknown names. -/
theorem c1_unknown_tool_dispatch (name : String) (args : Args) (env : ToolEnv)
    (h1 : name ≠ "get_weather") (h2 : name ≠ "get_current_time")
    (h3 : name ≠ "get_weather_forecast") :
    WeatherDemo.execute_tool_call name args env =
      .ok [("error", .s ("Unknown tool: " ++ name)), ("status", .s "error")] ∧
    statusStr [("error", JVal.s ("Unknown tool: " ++ name)), ("status", .s "error")] =
      some "error" ∧
    TestingKp.inlineDispatch name args env = .ok none := by
  unfold WeatherDemo.execute_tool_call TestingKp.inlineDispatch
  rw [if_neg h1, if_neg h2, if_neg h3, if_neg h1, if_neg h2, if_neg h3]
  exact ⟨rfl, rfl, rfl⟩

/-- C1 witness at the unknown name `"get_stock_price"`. -/
theorem c1_unknown_tool_dispatch_witness :
    ("get_stock_price" ≠ "get_weather" ∧ "get_stock_price" ≠ "get_current_time" ∧
      "get_stock_price" ≠ "get_weather_forecast") ∧
    WeatherDemo.execute_tool_call "get_stock_price" [("symbol", .s "ACME")] egToolEnv =
      .ok [("error", .s ("Unknown tool: " ++ "get_stock_price")), ("status", .s "error")] ∧
    statusStr [("error", JVal.s ("Unknown tool: " ++ "get_stock_price")),
               ("status", .s "error")] = some "error" ∧
    TestingKp.inlineDispatch "get_stock_price" [("symbol", .s "ACME")] egToolEnv = .ok none :=
  ⟨⟨by decide, by decide, by decide⟩,
   c1_unknown_tool_dispatch "get_stock_price" [("symbol", .s "ACME")] egToolEnv
     (by decide) (by decide) (by decide)⟩

/-! Claim C4. -/

/-- C4: with no OpenWeatherMap key configured (unset, empty, or the
placeholder), `get_weather` performs zero HTTP requests, returns a mapping
with status `"simulated"`, and for `unit == "fahrenheit"` its temperature is
the generated celsius value times 9/5 plus 32. -/
theorem c4_simulated_weather (location unit : JVal) (env : Weather.WeatherEnv)
    (h : noValidKey env.key = true) :
    (Weather.get_weather location unit env).2 = 0 ∧
    statusStr (Weather.get_weather location unit env).1 = some "simulated" ∧
    (unit = .s "fahrenheit" →
      (Weather.get_weather location unit env).1.lookup "temperature" =
        some (.q ((env.randTemp : ℚ) * 9 / 5 + 32))) := by
  unfold Weather.get_weather
  rw [if_pos h]
  refine ⟨rfl, rfl, ?_⟩
  rintro rfl
  rfl

/-- C4 witness: location Tokyo, fahrenheit, key unset, generated celsius 15. -/
theorem c4_simulated_weather_witness :
    noValidKey egWeatherEnvNoKey.key = true ∧
    (Weather.get_weather (.s "Tokyo") (.s "fahrenheit") egWeatherEnvNoKey).2 = 0 ∧
    statusStr (Weather.get_weather (.s "Tokyo") (.s "fahrenheit") egWeatherEnvNoKey).1 =
      some "simulated" ∧
    (Weather.get_weather (.s "Tokyo") (.s "fahrenheit") egWeatherEnvNoKey).1.lookup
        "temperature" = some (.q ((15 : ℚ) * 9 / 5 + 32)) := by
  have h := c4_simulated_weather (.s "Tokyo") (.s "fahrenheit") egWeatherEnvNoKey rfl
  exact ⟨rfl, h.1, h.2.1, h.2.2 rfl⟩

/-! Claim C8. -/

/-- C8: with an API key configured, every request exception, every response
missing a required key, and every other exception while reading the response
is converted into a mapping with status `"error"`, a nonempty human-readable
`error` message, and the `location` field equal to the argument; exactly one
HTTP request is made (no retry). -/
theorem c8_weather_api_errors (location unit : JVal) (env : Weather.WeatherEnv)
    (h : noValidKey env.key = false) :
    (Weather.get_weather location unit env).2 = 1 ∧
    (∀ m, env.net = .reqExc m →
        (Weather.get_weather location unit env).1 =
          [("location", location), ("error", .s ("Network error: " ++ m)),
           ("status", .s "error")] ∧
        "Network error: " ++ m ≠ "") ∧
    (∀ d e, env.net = .ok d → Weather.owmExtract unit d = .error e →
        (Weather.get_weather location unit env).1 =
          [("location", location),
           ("error", .s ("Invalid location or API response: " ++ e)),
           ("status", .s "error")] ∧
        "Invalid location or API response: " ++ e ≠ "") ∧
    (∀ m, env.net = .otherExc m →
        (Weather.get_weather location unit env).1 =
          [("location", location), ("error", .s ("Unexpected error: " ++ m)),
           ("status", .s "error")] ∧
        "Unexpected error: " ++ m ≠ "") := by
  have hneg : ¬ (noValidKey env.key = true) := by simp [h]
  unfold Weather.get_weather
  rw [if_neg hneg]
  refine ⟨?_, ?_, ?_, ?_⟩
  · cases henv : env.net with
    | reqExc m => simp [henv]
    | otherExc m => simp [henv]
    | ok d =>
      cases hx : Weather.owmExtract unit d with
      | ok r => simp [henv, hx]
      | error e => simp [henv, hx]
  · rintro m henv
    rw [henv]
    exact ⟨rfl, prefix_append_ne_empty _ _ (by decide)⟩
  · rintro d e henv hex
    refine ⟨?_, prefix_append_ne_empty _ _ (by decide)⟩
    simp [henv, hex]
  · rintro m henv
    rw [henv]
    exact ⟨rfl, prefix_append_ne_empty _ _ (by decide)⟩

/-- C8 witness: key configured, request times out. -/
theorem c8_weather_api_errors_witness :
    noValidKey egWeatherEnvKey.key = false ∧
    (Weather.get_weather (.s "Tokyo") (.s "celsius") egWeatherEnvKey).2 = 1 ∧
    (Weather.get_weather (.s "Tokyo") (.s "celsius") egWeatherEnvKey).1 =
      [("location", .s "Tokyo"),
       ("error", .s ("Network error: " ++ "connection timed out")),
       ("status", .s "error")] ∧
    "Network error: " ++ "connection timed out" ≠ "" := by
  have h := c8_weather_api_errors (.s "Tokyo") (.s "celsius") egWeatherEnvKey rfl
  exact ⟨rfl, h.1, (h.2.1 "connection timed out" rfl).1, (h.2.1 "connection timed out" rfl).2⟩

/-! Claim C10. -/

/-- C10 counterexample.  The claim says that whenever no endpoint is
resolved, the program prints the usage help and returns.  With
`--platform aws` given and no deployment files, `main` prints only the
platform-specific error and returns without the usage block: the resolution
ends in `abortPlatform`, not `abortUsage`. -/
theorem c10_endpoint_resolution_cex :
    TestClient.resolveEndpoint none (some "aws") none none =
      .abortPlatform "aws" ∧
    TestClient.Resolution.abortPlatform "aws" ≠ .abortUsage :=
  ⟨rfl, fun h => nomatch h⟩

/-- C10 (amended): a truthy (nonempty) explicit `--endpoint` always wins,
while an empty one is falsy and falls through; otherwise a given `--platform`
consults only its own deployment file, using its `api_endpoint` value — even
an empty one — or aborting with a platform-specific error (not the usage
help); otherwise auto-detection tries the aws file before the azure file,
breaks at the first that exists with an `api_endpoint` key, and prints the
usage help when nothing was found or the taken value is empty.  In every
abort case no server is contacted. -/
theorem c10_endpoint_resolution (argEndpoint argPlatform : Option String)
    (awsFile azureFile : Option (List (String × String))) :
    (∀ e, argEndpoint = some e → e ≠ "" →
        TestClient.resolveEndpoint argEndpoint argPlatform awsFile azureFile = .use e) ∧
    ((argEndpoint = none ∨ argEndpoint = some "") →
      ∀ p, argPlatform = some p → p ≠ "" →
        (∀ e, TestClient.infoEndpoint
              (TestClient.load_deployment_info awsFile azureFile p) = some e →
            TestClient.resolveEndpoint argEndpoint argPlatform awsFile azureFile = .use e) ∧
        (TestClient.infoEndpoint
              (TestClient.load_deployment_info awsFile azureFile p) = none →
            TestClient.resolveEndpoint argEndpoint argPlatform awsFile azureFile =
              .abortPlatform p)) ∧
    ((argEndpoint = none ∨ argEndpoint = some "") →
      (argPlatform = none ∨ argPlatform = some "") →
        (∀ e, TestClient.infoEndpoint
              (TestClient.load_deployment_info awsFile azureFile "aws") = some e →
            e ≠ "" →
            TestClient.resolveEndpoint argEndpoint argPlatform awsFile azureFile = .use e) ∧
        (TestClient.infoEndpoint
              (TestClient.load_deployment_info awsFile azureFile "aws") = some "" →
            TestClient.resolveEndpoint argEndpoint argPlatform awsFile azureFile =
              .abortUsage) ∧
        (TestClient.infoEndpoint
              (TestClient.load_deployment_info awsFile azureFile "aws") = none →
          (∀ e, TestClient.infoEndpoint
                (TestClient.load_deployment_info awsFile azureFile "azure") = some e →
              e ≠ "" →
              TestClient.resolveEndpoint argEndpoint argPlatform awsFile azureFile = .use e) ∧
          ((TestClient.infoEndpoint
                (TestClient.load_deployment_info awsFile azureFile "azure") = none ∨
            TestClient.infoEndpoint
                (TestClient.load_deployment_info awsFile azureFile "azure") = some "") →
              TestClient.resolveEndpoint argEndpoint argPlatform awsFile azureFile =
                .abortUsage))) := by
  refine ⟨?_, ?_, ?_⟩
  · rintro e rfl he
    simp [TestClient.resolveEndpoint, TestClient.pyTruthy, he]
  · intro hE p hp hpne
    have hEf : TestClient.pyTruthy argEndpoint = false := by
      rcases hE with rfl | rfl <;> rfl
    subst hp
    have hPt : TestClient.pyTruthy (some p) = true := by
      simp [TestClient.pyTruthy, hpne]
    constructor
    · intro e he
      simp [TestClient.resolveEndpoint, hEf, hPt, he]
    · intro he
      simp [TestClient.resolveEndpoint, hEf, hPt, he]
  · intro hE hP
    have hEf : TestClient.pyTruthy argEndpoint = false := by
      rcases hE with rfl | rfl <;> rfl
    have hPf : TestClient.pyTruthy argPlatform = false := by
      rcases hP with rfl | rfl <;> rfl
    have hn1 : TestClient.pyTruthy none = false := rfl
    have hn2 : TestClient.pyTruthy (some "") = false := rfl
    refine ⟨?_, ?_, ?_⟩
    · intro e he hne
      have het : TestClient.pyTruthy (some e) = true := by
        simp [TestClient.pyTruthy, hne]
      simp [TestClient.resolveEndpoint, hEf, hPf, he, het]
    · intro he
      simp [TestClient.resolveEndpoint, hEf, hPf, he, hn2]
    · intro he
      refine ⟨?_, ?_⟩
      · intro e he2 hne
        have het : TestClient.pyTruthy (some e) = true := by
          simp [TestClient.pyTruthy, hne]
        simp [TestClient.resolveEndpoint, hEf, hPf, he, he2, het]
      · intro he2
        rcases he2 with he2 | he2 <;>
          simp [TestClient.resolveEndpoint, hEf, hPf, he, he2, hn1, hn2]

/-- C10 witness: a nonempty explicit endpoint wins; an empty `--endpoint`
falls through to auto-detection; and auto-detection skips an aws file without
an `api_endpoint` field in favour of the azure file. -/
theorem c10_endpoint_resolution_witness :
    ((some "http://1.2.3.4:8000" : Option String) = some "http://1.2.3.4:8000" ∧
      "http://1.2.3.4:8000" ≠ "") ∧
    TestClient.resolveEndpoint (some "http://1.2.3.4:8000") none none none =
      .use "http://1.2.3.4:8000" ∧
    TestClient.resolveEndpoint (some "") none
        (some [("api_endpoint", "http://5.6.7.8:8000")]) none =
      .use "http://5.6.7.8:8000" ∧
    TestClient.infoEndpoint (TestClient.load_deployment_info
        (some [("instance_id", "i-1")]) (some [("api_endpoint", "http://5.6.7.8:8000")])
        "aws") = none ∧
    TestClient.resolveEndpoint none none
        (some [("instance_id", "i-1")]) (some [("api_endpoint", "http://5.6.7.8:8000")]) =
      .use "http://5.6.7.8:8000" := by
  refine ⟨⟨rfl, by decide⟩,
    (c10_endpoint_resolution _ _ _ _).1 _ rfl (by decide), ?_, rfl, ?_⟩
  · exact (((c10_endpoint_resolution (some "") none
        (some [("api_endpoint", "http://5.6.7.8:8000")]) none).2.2 (Or.inr rfl)
        (Or.inl rfl)).1 _ rfl (by decide))
  · exact ((((c10_endpoint_resolution none none (some [("instance_id", "i-1")])
        (some [("api_endpoint", "http://5.6.7.8:8000")])).2.2 (Or.inl rfl)
        (Or.inl rfl)).2.2 rfl).1 _ rfl (by decide))

/-! Claim C5. -/

/-- An abbreviation that resolves through the table to a zone the database
knows reports the full zone name in its `timezone` field. -/
theorem tz_known_lookup (env : Weather.TimeEnv) (tzs full : String)
    (hl : (Weather.timezone_mapping.lookup (pyUpper tzs)).getD tzs = full)
    (hc : env.knownZones.contains full = true) :
    (Weather.get_current_time (.s tzs) env).lookup "timezone" = some (.s full) := by
  simp only [Weather.get_current_time, hl, hc, if_true]
  rfl

/-- C5: every abbreviation of the mapping table resolves to its full zone
name, reported in the `timezone` field (given that the pytz database accepts
the mapped names, as it does); every input that neither resolves through the
table nor names a known zone yields a status `"error"` mapping with a
nonempty `available_timezones_sample` list. -/
theorem c5_timezone_resolution (env : Weather.TimeEnv)
    (hz : ∀ p ∈ Weather.timezone_mapping, env.knownZones.contains p.2 = true) :
    (∀ p ∈ Weather.timezone_mapping,
        (Weather.get_current_time (.s p.1) env).lookup "timezone" = some (.s p.2)) ∧
    (∀ tzs : String, Weather.timezone_mapping.lookup (pyUpper tzs) = none →
        env.knownZones.contains tzs = false →
        statusStr (Weather.get_current_time (.s tzs) env) = some "error" ∧
        0 < sampleLen (Weather.get_current_time (.s tzs) env)) := by
  constructor
  · intro p hp
    have hc := hz p hp
    fin_cases hp <;> exact tz_known_lookup env _ _ (by decide) hc
  · intro tzs h1 h2
    have hm : (Weather.timezone_mapping.lookup (pyUpper tzs)).getD tzs = tzs := by
      rw [h1]; rfl
    constructor
    · simp only [Weather.get_current_time, hm, h2, Bool.false_eq_true, if_false]
      rfl
    · simp only [Weather.get_current_time, hm, h2, Bool.false_eq_true, if_false]
      show 0 < sampleLen _
      exact Nat.succ_pos 3

/-- C5 witness: the table maps into the example database; `"EST"` resolves to
`"US/Eastern"`, and the unknown `"Mars/Olympus"` yields the error mapping. -/
theorem c5_timezone_resolution_witness :
    (∀ p ∈ Weather.timezone_mapping, egTimeEnv.knownZones.contains p.2 = true) ∧
    (Weather.get_current_time (.s "EST") egTimeEnv).lookup "timezone" =
      some (.s "US/Eastern") ∧
    statusStr (Weather.get_current_time (.s "Mars/Olympus") egTimeEnv) = some "error" ∧
    0 < sampleLen (Weather.get_current_time (.s "Mars/Olympus") egTimeEnv) := by
  have hz : ∀ p ∈ Weather.timezone_mapping, egTimeEnv.knownZones.contains p.2 = true := by
    decide
  have h := c5_timezone_resolution egTimeEnv hz
  exact ⟨hz, h.1 ("EST", "US/Eastern") (by decide),
    (h.2 "Mars/Olympus" (by decide) (by decide)).1,
    (h.2 "Mars/Olympus" (by decide) (by decide)).2⟩

/-! Claim C9. -/

/-- One loop iteration keeps the conversation nonempty, keeps the original
system message first, and keeps the length at most 10. -/
theorem chatStep_inv (conv : List TestClient.CMsg) (inp : TestClient.ChatInput)
    (resp : TestClient.ChatResp)
    (hh : conv.head? = some (.system TestClient.chatSystemPrompt))
    (hl : conv.length ≤ 10) :
    (TestClient.chatStep conv inp resp).head? =
      some (.system TestClient.chatSystemPrompt) ∧
    (TestClient.chatStep conv inp resp).length ≤ 10 := by
  cases conv with
  | nil => simp at hh
  | cons a l =>
    have ha : a = .system TestClient.chatSystemPrompt := by
      simpa using hh
    subst ha
    cases inp with
    | quitCmd => exact ⟨hh, hl⟩
    | empty => exact ⟨hh, hl⟩
    | text s =>
      simp only [TestClient.chatStep]
      rcases resp with m | m
      all_goals
        simp only [List.cons_append]
        split
        · constructor
          · simp [List.take]
          · simp only [List.length_append, List.length_cons, List.length_take,
              List.length_drop]
            omega
        · constructor
          · simp
          · simp only [List.length_append, List.length_cons] at hl ⊢
            simp only [List.length_cons, List.length_append] at *
            omega

/-- C9 (amended): at the start of every loop iteration of `interactive_chat`
the conversation holds at most 10 messages — not 9: an error response skips
the assistant append and can leave the list at exactly 10 — and its first
entry is always the original system message; whenever the list exceeds 10 it
is cut to the system message plus the last 8 entries. -/
theorem c9_chat_window (steps : List (TestClient.ChatInput × TestClient.ChatResp)) :
    (TestClient.chatRun steps).length ≤ 10 ∧
    (TestClient.chatRun steps).head? = some (.system TestClient.chatSystemPrompt) := by
  suffices h : ∀ (ss : List (TestClient.ChatInput × TestClient.ChatResp))
      (conv : List TestClient.CMsg),
      conv.head? = some (.system TestClient.chatSystemPrompt) → conv.length ≤ 10 →
      (ss.foldl (fun c p => TestClient.chatStep c p.1 p.2) conv).head? =
        some (.system TestClient.chatSystemPrompt) ∧
      (ss.foldl (fun c p => TestClient.chatStep c p.1 p.2) conv).length ≤ 10 by
    have := h steps [.system TestClient.chatSystemPrompt] rfl (by decide)
    exact ⟨this.2, this.1⟩
  intro ss
  induction ss with
  | nil => intro conv hh hl; exact ⟨hh, hl⟩
  | cons p rest ih =>
    intro conv hh hl
    have := chatStep_inv conv p.1 p.2 hh hl
    exact ih (TestClient.chatStep conv p.1 p.2) this.1 this.2

/-- C9 counterexample.  Four successful exchanges bring the list to 9
entries; a fifth user message whose completion returns the error dict is
appended without an assistant reply and without truncation (10 is not greater
than 10), so the next iteration starts with 10 entries, refuting the claimed
bound of 9. -/
theorem c9_chat_window_cex :
    (TestClient.chatRun cexChatSteps).length = 10 ∧
    ¬ ((TestClient.chatRun cexChatSteps).length ≤ 9) := by
  decide

/-! Claim C6. -/

/-- C6 counterexample.  The claim says every tool-function mapping carries a
status among `success`, `simulated`, `error`.  A successful `draft_email`
returns status `"drafted"` and a successful `open_email_client` returns
status `"email_client_opened"`, neither of which is in that set. -/
theorem c6_status_values_cex :
    statusStr (LocalDemo.draft_email (.s "alice@example.com") (.s "Hello")
        (.s "Hi there") none) = some "drafted" ∧
    "drafted" ∉ (["success", "simulated", "error"] : List String) ∧
    statusStr (LocalDemo.open_email_client (.s "alice@example.com") (.s "Hello")
        (.s "Hi there") none ⟨"linux", true⟩) = some "email_client_opened" ∧
    "email_client_opened" ∉ (["success", "simulated", "error"] : List String) := by
  refine ⟨rfl, by decide, ?_, by decide⟩
  rfl

/-- C6 (amended): every mapping produced by a tool function carries a
`status` key whose string value lies in the five-element set
`success | simulated | error | drafted | email_client_opened`; the last two
are the success statuses of `draft_email` and `open_email_client` of
`gpt_oss_local_demo.py`. -/
theorem c6_status_values :
    (∀ location unit env, ∃ v,
        statusStr (Weather.get_weather location unit env).1 = some v ∧
        v ∈ extendedStatuses) ∧
    (∀ tz env, ∃ v,
        statusStr (Weather.get_current_time tz env) = some v ∧
        v ∈ extendedStatuses) ∧
    (∀ location days env r n,
        TestingKp.get_weather_forecast location days env = .ok (r, n) →
        ∃ v, statusStr r = some v ∧ v ∈ extendedStatuses) ∧
    (∀ location days env r n,
        OllamaWeather.get_weather_forecast location days env = .ok (r, n) →
        ∃ v, statusStr r = some v ∧ v ∈ extendedStatuses) ∧
    (∀ recipient subject content cc, ∃ v,
        statusStr (LocalDemo.draft_email recipient subject content cc) = some v ∧
        v ∈ extendedStatuses) ∧
    (∀ recipient subject content cc env, ∃ v,
        statusStr (LocalDemo.open_email_client recipient subject content cc env) =
          some v ∧ v ∈ extendedStatuses) ∧
    (∀ info, statusStr (LocalDemo.get_system_info info) = some "success" ∧
        "success" ∈ extendedStatuses) := by
  refine ⟨?_, ?_, ?_, ?_, ?_, ?_, ?_⟩
  · intro location unit env
    by_cases hk : noValidKey env.key = true
    · refine ⟨"simulated", ?_, by decide⟩
      unfold Weather.get_weather
      rw [if_pos hk]
      rfl
    · unfold Weather.get_weather
      rw [if_neg hk]
      cases hn : env.net with
      | reqExc m => exact ⟨"error", rfl, by decide⟩
      | otherExc m => exact ⟨"error", rfl, by decide⟩
      | ok d =>
        cases hx : Weather.owmExtract unit d with
        | ok r =>
          refine ⟨"success", ?_, by decide⟩
          simpa [hx] using owmExtract_ok_status unit d r hx
        | error e =>
          refine ⟨"error", ?_, by decide⟩
          simp [hx]
          rfl
  · intro tz env
    cases tz with
    | s tzs =>
      simp only [Weather.get_current_time]
      by_cases hc : env.knownZones.contains
          ((Weather.timezone_mapping.lookup (pyUpper tzs)).getD tzs) = true
      · rw [if_pos hc]
        exact ⟨"success", rfl, by decide⟩
      · rw [if_neg hc]
        exact ⟨"error", rfl, by decide⟩
    | null => exact ⟨"error", rfl, by decide⟩
    | i v => exact ⟨"error", rfl, by decide⟩
    | q v => exact ⟨"error", rfl, by decide⟩
    | b v => exact ⟨"error", rfl, by decide⟩
    | arr v => exact ⟨"error", rfl, by decide⟩
    | obj v => exact ⟨"error", rfl, by decide⟩
  · intro location days env r n h
    unfold TestingKp.get_weather_forecast at h
    by_cases hk : noValidKey env.key = true
    · rw [if_pos hk] at h
      cases days with
      | i d =>
        simp only [Except.ok.injEq, Prod.mk.injEq] at h
        obtain ⟨h1, -⟩ := h
        subst h1
        exact ⟨"simulated", rfl, by decide⟩
      | null => exact absurd h (by simp)
      | s v => exact absurd h (by simp)
      | q v => exact absurd h (by simp)
      | b v => exact absurd h (by simp)
      | arr v => exact absurd h (by simp)
      | obj v => exact absurd h (by simp)
    · rw [if_neg hk] at h
      cases days with
      | null =>
        simp only [Except.ok.injEq, Prod.mk.injEq] at h
        obtain ⟨h1, -⟩ := h
        subst h1
        exact ⟨"error", rfl, by decide⟩
      | s v =>
        simp only [Except.ok.injEq, Prod.mk.injEq] at h
        obtain ⟨h1, -⟩ := h
        subst h1
        exact ⟨"error", rfl, by decide⟩
      | q v =>
        simp only [Except.ok.injEq, Prod.mk.injEq] at h
        obtain ⟨h1, -⟩ := h
        subst h1
        exact ⟨"error", rfl, by decide⟩
      | b v =>
        simp only [Except.ok.injEq, Prod.mk.injEq] at h
        obtain ⟨h1, -⟩ := h
        subst h1
        exact ⟨"error", rfl, by decide⟩
      | arr v =>
        simp only [Except.ok.injEq, Prod.mk.injEq] at h
        obtain ⟨h1, -⟩ := h
        subst h1
        exact ⟨"error", rfl, by decide⟩
      | obj v =>
        simp only [Except.ok.injEq, Prod.mk.injEq] at h
        obtain ⟨h1, -⟩ := h
        subst h1
        exact ⟨"error", rfl, by decide⟩
      | i d =>
        cases hn : env.net with
        | reqExc m =>
          rw [hn] at h
          simp only [Except.ok.injEq, Prod.mk.injEq] at h
          obtain ⟨h1, -⟩ := h
          subst h1
          exact ⟨"error", rfl, by decide⟩
        | malformed m =>
          rw [hn] at h
          simp only [Except.ok.injEq, Prod.mk.injEq] at h
          obtain ⟨h1, -⟩ := h
          subst h1
          exact ⟨"error", rfl, by decide⟩
        | otherExc m =>
          rw [hn] at h
          simp only [Except.ok.injEq, Prod.mk.injEq] at h
          obtain ⟨h1, -⟩ := h
          subst h1
          exact ⟨"error", rfl, by decide⟩
        | ok name country lat lon items =>
          rw [hn] at h
          simp only [Except.ok.injEq, Prod.mk.injEq] at h
          obtain ⟨h1, -⟩ := h
          subst h1
          exact ⟨"success", rfl, by decide⟩
  · intro location days env r n h
    unfold OllamaWeather.get_weather_forecast at h
    by_cases hk : noValidKey env.key = true
    · rw [if_pos hk] at h
      cases days with
      | i d =>
        simp only [Except.ok.injEq, Prod.mk.injEq] at h
        obtain ⟨h1, -⟩ := h
        subst h1
        exact ⟨"simulated", rfl, by decide⟩
      | null => exact absurd h (by simp)
      | s v => exact absurd h (by simp)
      | q v => exact absurd h (by simp)
      | b v => exact absurd h (by simp)
      | arr v => exact absurd h (by simp)
      | obj v => exact absurd h (by simp)
    · rw [if_neg hk] at h
      cases days with
      | null =>
        simp only [Except.ok.injEq, Prod.mk.injEq] at h
        obtain ⟨h1, -⟩ := h
        subst h1
        exact ⟨"error", rfl, by decide⟩
      | s v =>
        simp only [Except.ok.injEq, Prod.mk.injEq] at h
        obtain ⟨h1, -⟩ := h
        subst h1
        exact ⟨"error", rfl, by decide⟩
      | q v =>
        simp only [Except.ok.injEq, Prod.mk.injEq] at h
        obtain ⟨h1, -⟩ := h
        subst h1
        exact ⟨"error", rfl, by decide⟩
      | b v =>
        simp only [Except.ok.injEq, Prod.mk.injEq] at h
        obtain ⟨h1, -⟩ := h
        subst h1
        exact ⟨"error", rfl, by decide⟩
      | arr v =>
        simp only [Except.ok.injEq, Prod.mk.injEq] at h
        obtain ⟨h1, -⟩ := h
        subst h1
        exact ⟨"error", rfl, by decide⟩
      | obj v =>
        simp only [Except.ok.injEq, Prod.mk.injEq] at h
        obtain ⟨h1, -⟩ := h
        subst h1
        exact ⟨"error", rfl, by decide⟩
      | i d =>
        cases hn : env.net with
        | reqExc m =>
          rw [hn] at h
          simp only [Except.ok.injEq, Prod.mk.injEq] at h
          obtain ⟨h1, -⟩ := h
          subst h1
          exact ⟨"error", rfl, by decide⟩
        | malformed m =>
          rw [hn] at h
          simp only [Except.ok.injEq, Prod.mk.injEq] at h
          obtain ⟨h1, -⟩ := h
          subst h1
          exact ⟨"error", rfl, by decide⟩
        | otherExc m =>
          rw [hn] at h
          simp only [Except.ok.injEq, Prod.mk.injEq] at h
          obtain ⟨h1, -⟩ := h
          subst h1
          exact ⟨"error", rfl, by decide⟩
        | ok name country lat lon items =>
          rw [hn] at h
          simp only [Except.ok.injEq, Prod.mk.injEq] at h
          obtain ⟨h1, -⟩ := h
          subst h1
          exact ⟨"success", rfl, by decide⟩
  · intro recipient subject content cc
    cases content with
    | s c => exact ⟨"drafted", rfl, by decide⟩
    | null => exact ⟨"error", rfl, by decide⟩
    | i v => exact ⟨"error", rfl, by decide⟩
    | q v => exact ⟨"error", rfl, by decide⟩
    | b v => exact ⟨"error", rfl, by decide⟩
    | arr v => exact ⟨"error", rfl, by decide⟩
    | obj v => exact ⟨"error", rfl, by decide⟩
  · intro recipient subject content cc env
    cases subject <;> cases content <;>
      first
        | exact ⟨"error", rfl, by decide⟩
        | skip
    simp only [LocalDemo.open_email_client]
    by_cases hos : env.system = "windows" ∨ env.system = "darwin" ∨
        env.system = "linux"
    · rw [if_pos hos]
      cases hsub : env.subprocessOk
      · rw [if_neg (by simp [hsub])]
        exact ⟨"error", rfl, by decide⟩
      · rw [if_pos (by simp [hsub])]
        exact ⟨"email_client_opened", rfl, by decide⟩
    · rw [if_neg hos]
      exact ⟨"error", rfl, by decide⟩
  · intro info
    exact ⟨rfl, by decide⟩

/-- C6 witness at a concrete simulated forecast. -/
theorem c6_status_values_witness :
    TestingKp.get_weather_forecast (.s "Paris") (.i 2) egForecastEnvNoKey =
      .ok (simForecastResult (.s "Paris") 2 egForecastEnvNoKey, 0) ∧
    (∃ v, statusStr (simForecastResult (.s "Paris") 2 egForecastEnvNoKey) = some v ∧
      v ∈ extendedStatuses) :=
  ⟨rfl, c6_status_values.2.2.1 (.s "Paris") (.i 2) egForecastEnvNoKey
      (simForecastResult (.s "Paris") 2 egForecastEnvNoKey) 0 rfl⟩

/-! Claim C7. -/

/-- A dispatch exception aborts the turn: the outer generic handler of
`assistant_with_tools` returns an error string after only the first request. -/
theorem turn_error_aux (u : String) (cenv : TestingKp.ChatEnv) (e : PyErr)
    (h1 : cenv.first.tool_calls ≠ [])
    (h2 : TestingKp.runToolCalls cenv 0 cenv.first.tool_calls = .error e) :
    TestingKp.assistant_with_tools u cenv =
      (some (TestingKp.turnErrString e),
       [⟨true, [.system TestingKp.sysPrompt, .user u]⟩]) := by
  unfold TestingKp.assistant_with_tools
  rw [if_neg (by simpa [List.isEmpty_iff] using h1)]
  rw [h2]

/-- C7 counterexample.  The claim says an argument mapping that does not
match the invoked function's parameters raises a local error that is caught
and converted into an error-status mapping, and that dispatch never
propagates the exception.  The `execute_tool_call` dispatcher has no handler:
the `TypeError` raised while binding the misspelled keyword `units`
propagates out of the dispatch as an exception, not a mapping. -/
theorem c7_argument_binding_cex :
    WeatherDemo.execute_tool_call "get_weather"
        [("location", .s "Tokyo"), ("units", .s "celsius")] egToolEnv =
      .error (.typeError "got an unexpected keyword argument") := rfl

/-- C7 (amended): an argument mapping with an unexpected keyword makes the
call-site binding raise `TypeError`, which `execute_tool_call` and the inline
dispatch both propagate rather than convert; in the conversation loop it is
caught only by the outer turn-level handler, which returns an error string —
not an error-status mapping — after a single request.  Only errors raised
inside a tool function's own `try` (e.g. a non-string `timezone` in
`get_current_time`) become error-status mappings. -/
theorem c7_argument_binding (args : Args) (env : ToolEnv)
    (h : (argNames args).all
        (fun k => (["location"] : List String).contains k ||
          (["unit"] : List String).contains k) = false) :
    WeatherDemo.execute_tool_call "get_weather" args env =
      .error (.typeError "got an unexpected keyword argument") ∧
    TestingKp.inlineDispatch "get_weather" args env =
      .error (.typeError "got an unexpected keyword argument") ∧
    (∀ u cenv e, cenv.first.tool_calls ≠ [] →
        TestingKp.runToolCalls cenv 0 cenv.first.tool_calls = .error e →
        TestingKp.assistant_with_tools u cenv =
          (some (TestingKp.turnErrString e),
           [⟨true, [.system TestingKp.sysPrompt, .user u]⟩])) ∧
    (∀ (n : Int) (tenv : Weather.TimeEnv),
        statusStr (Weather.get_current_time (.i n) tenv) = some "error") := by
  have hb : bindArgs ["location"] ["unit"] args =
      .error (.typeError "got an unexpected keyword argument") := by
    unfold bindArgs
    rw [if_neg (by rw [h]; exact Bool.false_ne_true)]
  refine ⟨?_, ?_, turn_error_aux, fun n tenv => rfl⟩
  · unfold WeatherDemo.execute_tool_call
    rw [if_pos rfl, hb]
  · unfold TestingKp.inlineDispatch
    rw [if_pos rfl, hb]

/-- C7 witness: the misspelled keyword `units`, dispatched directly and
through a full conversation turn. -/
theorem c7_argument_binding_witness :
    ((argNames [("location", JVal.s "Tokyo"), ("units", .s "celsius")]).all
        (fun k => (["location"] : List String).contains k ||
          (["unit"] : List String).contains k) = false) ∧
    WeatherDemo.execute_tool_call "get_weather"
        [("location", .s "Tokyo"), ("units", .s "celsius")] egToolEnv =
      .error (.typeError "got an unexpected keyword argument") ∧
    TestingKp.assistant_with_tools "What is the weather in Tokyo?" egBadCallEnv =
      (some (TestingKp.turnErrString (.typeError "got an unexpected keyword argument")),
       [⟨true, [.system TestingKp.sysPrompt, .user "What is the weather in Tokyo?"]⟩]) ∧
    statusStr (Weather.get_current_time (.i 5) egTimeEnv) = some "error" := by
  have h := c7_argument_binding
      [("location", .s "Tokyo"), ("units", .s "celsius")] egToolEnv (by decide)
  exact ⟨by decide, h.1,
    h.2.2.1 "What is the weather in Tokyo?" egBadCallEnv _
      (List.cons_ne_nil _ _) rfl,
    h.2.2.2 5 egTimeEnv⟩

/-! Claim C2. -/

/-- The messages produced by the tool-call loop are tool messages whose ids
form an order-preserving selection of the listed call ids. -/
theorem runToolCalls_sublist (env : TestingKp.ChatEnv) :
    ∀ (tcs : List TestingKp.ToolCall) (idx : ℕ) (tms : List TestingKp.ChatMsg),
      TestingKp.runToolCalls env idx tcs = .ok tms →
      List.Sublist (toolIds tms) (tcs.map TestingKp.ToolCall.id) ∧
      ∀ c ∈ tms, TestingKp.isToolMsg c = true := by
  intro tcs
  induction tcs with
  | nil =>
    intro idx tms h
    simp only [TestingKp.runToolCalls, Except.ok.injEq] at h
    subst h
    exact ⟨List.nil_sublist _, by simp⟩
  | cons tc rest ih =>
    intro idx tms h
    unfold TestingKp.runToolCalls at h
    cases hd : TestingKp.inlineDispatch tc.fname tc.args (env.toolEnvs idx) with
    | error e => rw [hd] at h; exact absurd h (by simp)
    | ok o =>
      rw [hd] at h
      cases o with
      | none =>
        obtain ⟨h1, h2⟩ := ih (idx + 1) tms h
        exact ⟨h1.trans (List.sublist_cons_self _ _), h2⟩
      | some r =>
        cases ht : TestingKp.runToolCalls env (idx + 1) rest with
        | error e => rw [ht] at h; exact absurd h (by simp)
        | ok tail =>
          rw [ht] at h
          simp only [Except.ok.injEq] at h
          subst h
          obtain ⟨h1, h2⟩ := ih (idx + 1) tail ht
          cases hre : r.isEmpty with
          | true =>
            rw [if_pos rfl]
            exact ⟨h1.trans (List.sublist_cons_self _ _), h2⟩
          | false =>
            rw [if_neg (by simp)]
            refine ⟨?_, ?_⟩
            · exact List.Sublist.cons₂ _ h1
            · intro c hc
              rcases List.mem_cons.mp hc with hc1 | hc2
              · subst hc1; rfl
              · exact h2 c hc2

/-- Every listed tool call whose dispatch yields a truthy mapping contributes
its paired tool message (by id) to the produced messages. -/
theorem runToolCalls_presence (env : TestingKp.ChatEnv) :
    ∀ (tcs : List TestingKp.ToolCall) (idx : ℕ) (tms : List TestingKp.ChatMsg),
      TestingKp.runToolCalls env idx tcs = .ok tms →
      ∀ j (hj : j < tcs.length) (r : ToolResult),
        TestingKp.inlineDispatch (tcs.get ⟨j, hj⟩).fname (tcs.get ⟨j, hj⟩).args
            (env.toolEnvs (idx + j)) = .ok (some r) →
        r.isEmpty = false →
        (tcs.get ⟨j, hj⟩).id ∈ toolIds tms := by
  intro tcs
  induction tcs with
  | nil =>
    intro idx tms h j hj
    exact absurd hj (by simp)
  | cons tc rest ih =>
    intro idx tms h j hj r hdisp hre
    unfold TestingKp.runToolCalls at h
    cases hd : TestingKp.inlineDispatch tc.fname tc.args (env.toolEnvs idx) with
    | error e => rw [hd] at h; exact absurd h (by simp)
    | ok o =>
      rw [hd] at h
      cases j with
      | zero =>
        rw [Nat.add_zero] at hdisp
        rw [show (tc :: rest).get ⟨0, hj⟩ = tc from rfl] at hdisp
        rw [hd] at hdisp
        simp only [Except.ok.injEq] at hdisp
        subst hdisp
        cases ht : TestingKp.runToolCalls env (idx + 1) rest with
        | error e => rw [ht] at h; exact absurd h (by simp)
        | ok tail =>
          rw [ht] at h
          simp only [Except.ok.injEq] at h
          subst h
          rw [if_neg (by simp [hre])]
          exact List.mem_cons_self _ _
      | succ jj =>
        have hj2 : jj < rest.length := by simpa using hj
        have hidx : idx + (jj + 1) = (idx + 1) + jj := by omega
        rw [hidx] at hdisp
        have hget : (tc :: rest).get ⟨jj + 1, hj⟩ = rest.get ⟨jj, hj2⟩ := rfl
        rw [hget] at hdisp ⊢
        cases o with
        | none => exact ih (idx + 1) tms h jj hj2 r hdisp hre
        | some r2 =>
          cases ht : TestingKp.runToolCalls env (idx + 1) rest with
          | error e => rw [ht] at h; exact absurd h (by simp)
          | ok tail =>
            rw [ht] at h
            simp only [Except.ok.injEq] at h
            subst h
            have hmem := ih (idx + 1) tail ht jj hj2 r hdisp hre
            cases hre2 : r2.isEmpty with
            | true =>
              rw [if_pos rfl]
              exact hmem
            | false =>
              rw [if_neg (by simp)]
              exact List.mem_cons_of_mem _ hmem

/-- C2 counterexample.  The claim says a paired tool-result message is
appended for each tool call of the first response.  A first response carrying
exactly one tool call with the unknown name `"get_stock_price"` still
triggers the second request, but the second request's message list contains
zero tool messages: nothing was appended for that call. -/
theorem c2_two_round_turn_cex :
    (TestingKp.assistant_with_tools "AAPL price?" egUnknownCallEnv).2.length = 2 ∧
    egUnknownCallEnv.first.tool_calls.length = 1 ∧
    ((TestingKp.assistant_with_tools "AAPL price?" egUnknownCallEnv).2.getD 1
        ⟨true, []⟩).messages.countP TestingKp.isToolMsg = 0 :=
  ⟨rfl, rfl, rfl⟩

/-- C2 (amended): every turn makes at most two model requests; zero tool
calls make the first response's content terminal after one request with the
schema attached; otherwise the calls are processed in listed order — a
paired tool message (matching `tool_call_id`) is appended for each call whose
name is registered and whose dispatch returns a truthy mapping, while calls
with unknown names are silently skipped — and a second request without the
schema is sent whose content is terminal; if a dispatch raises, the turn
instead ends after the first request with the handler's error string. -/
theorem c2_two_round_turn (u : String) (env : TestingKp.ChatEnv) :
    (TestingKp.assistant_with_tools u env).2.length ≤ 2 ∧
    (env.first.tool_calls = [] →
        TestingKp.assistant_with_tools u env =
          (env.first.content, [⟨true, [.system TestingKp.sysPrompt, .user u]⟩])) ∧
    (∀ tms, env.first.tool_calls ≠ [] →
        TestingKp.runToolCalls env 0 env.first.tool_calls = .ok tms →
        TestingKp.assistant_with_tools u env =
          (env.second.content,
           [⟨true, [.system TestingKp.sysPrompt, .user u]⟩,
            ⟨false, ([.system TestingKp.sysPrompt, .user u] ++
              [.assistant env.first]) ++ tms⟩]) ∧
        List.Sublist (toolIds tms) (env.first.tool_calls.map TestingKp.ToolCall.id) ∧
        (∀ c ∈ tms, TestingKp.isToolMsg c = true) ∧
        (∀ j (hj : j < env.first.tool_calls.length) (r : ToolResult),
            TestingKp.inlineDispatch (env.first.tool_calls.get ⟨j, hj⟩).fname
                (env.first.tool_calls.get ⟨j, hj⟩).args (env.toolEnvs j) =
              .ok (some r) →
            r.isEmpty = false →
            (env.first.tool_calls.get ⟨j, hj⟩).id ∈ toolIds tms)) ∧
    (∀ e, env.first.tool_calls ≠ [] →
        TestingKp.runToolCalls env 0 env.first.tool_calls = .error e →
        TestingKp.assistant_with_tools u env =
          (some (TestingKp.turnErrString e),
           [⟨true, [.system TestingKp.sysPrompt, .user u]⟩])) := by
  refine ⟨?_, ?_, ?_, ?_⟩
  · unfold TestingKp.assistant_with_tools
    by_cases he : env.first.tool_calls.isEmpty = true
    · rw [if_pos he]
      simp
    · rw [if_neg he]
      cases hr : TestingKp.runToolCalls env 0 env.first.tool_calls with
      | error e => simp
      | ok tms => simp
  · intro h0
    unfold TestingKp.assistant_with_tools
    rw [if_pos (by simp [h0])]
  · intro tms hne hok
    refine ⟨?_, (runToolCalls_sublist env _ 0 tms hok).1,
      (runToolCalls_sublist env _ 0 tms hok).2, ?_⟩
    · unfold TestingKp.assistant_with_tools
      rw [if_neg (by simpa [List.isEmpty_iff] using hne)]
      rw [hok]
    · intro j hj r hdisp hre
      exact runToolCalls_presence env env.first.tool_calls 0 tms hok j hj r
        (by simpa [Nat.zero_add] using hdisp) hre
  · intro e hne herr
    exact turn_error_aux u env e hne herr

/-- C2 witness: one registered tool call (`get_weather`, location Tokyo, no
API key) runs to completion, appends its paired tool message, and the second
request is sent without the tool schema. -/
theorem c2_two_round_turn_witness :
    egGoodCallEnv.first.tool_calls ≠ [] ∧
    TestingKp.runToolCalls egGoodCallEnv 0 egGoodCallEnv.first.tool_calls =
      .ok [.tool "call_1" "get_weather"
        (Weather.get_weather (.s "Tokyo") (.s "celsius") egWeatherEnvNoKey).1] ∧
    TestingKp.assistant_with_tools "Weather in Tokyo?" egGoodCallEnv =
      (egGoodCallEnv.second.content,
       [⟨true, [.system TestingKp.sysPrompt, .user "Weather in Tokyo?"]⟩,
        ⟨false, ([.system TestingKp.sysPrompt, .user "Weather in Tokyo?"] ++
          [.assistant egGoodCallEnv.first]) ++
          [.tool "call_1" "get_weather"
            (Weather.get_weather (.s "Tokyo") (.s "celsius") egWeatherEnvNoKey).1]⟩]) := by
  have h2 : TestingKp.runToolCalls egGoodCallEnv 0 egGoodCallEnv.first.tool_calls =
      .ok [.tool "call_1" "get_weather"
        (Weather.get_weather (.s "Tokyo") (.s "celsius") egWeatherEnvNoKey).1] := rfl
  exact ⟨List.cons_ne_nil _ _, h2,
    ((c2_two_round_turn "Weather in Tokyo?" egGoodCallEnv).2.2.1 _
      (List.cons_ne_nil _ _) h2).1⟩

/-! Claim C3. -/

/-- The day keys after one grouping step: unchanged if the key is present,
appended at the end otherwise. -/
theorem addToGroup_keys (g : List (ℕ × List FItem)) (k : ℕ) (it : FItem) :
    (TestingKp.addToGroup g k it).map Prod.fst =
      if k ∈ g.map Prod.fst then g.map Prod.fst else g.map Prod.fst ++ [k] := by
  induction g with
  | nil => simp [TestingKp.addToGroup]
  | cons p rest ih =>
    obtain ⟨k1, l⟩ := p
    by_cases hk : k1 = k
    · subst hk
      simp [TestingKp.addToGroup]
    · simp only [TestingKp.addToGroup, if_neg hk, List.map_cons, ih]
      by_cases hm : k ∈ rest.map Prod.fst
      · rw [if_pos hm, if_pos (by simp [hm])]
      · rw [if_neg hm, if_neg (by simp [hm, Ne.symm hk])]
        simp

/-- One grouping step preserves the grouping invariant. -/
theorem addToGroup_good (g : List (ℕ × List FItem)) (k : ℕ) (it : FItem)
    (hit : fDay it = k) (hg : GoodGroups g) :
    GoodGroups (TestingKp.addToGroup g k it) := by
  induction g with
  | nil =>
    constructor
    · simp [TestingKp.addToGroup]
    · intro p hp
      simp only [TestingKp.addToGroup, List.mem_singleton] at hp
      subst hp
      refine ⟨by simp, ?_⟩
      intro x hx
      simp only [List.mem_singleton] at hx
      subst hx
      exact hit
  | cons q rest ih =>
    obtain ⟨k1, l⟩ := q
    obtain ⟨hnd, hmem⟩ := hg
    simp only [List.map_cons, List.nodup_cons] at hnd
    by_cases hk : k1 = k
    · subst hk
      unfold TestingKp.addToGroup
      rw [if_pos rfl]
      constructor
      · simp only [List.map_cons, List.nodup_cons]
        exact ⟨hnd.1, hnd.2⟩
      · intro p hp
        rcases List.mem_cons.mp hp with h1 | h2
        · subst h1
          refine ⟨by simp, ?_⟩
          intro x hx
          rcases List.mem_append.mp hx with hx1 | hx2
          · exact (hmem (k1, l) (List.mem_cons_self _ _)).2 x hx1
          · simp only [List.mem_singleton] at hx2
            subst hx2
            exact hit
        · exact hmem p (List.mem_cons_of_mem _ h2)
    · unfold TestingKp.addToGroup
      rw [if_neg hk]
      have ihg : GoodGroups (TestingKp.addToGroup rest k it) :=
        ih ⟨hnd.2, fun p hp => hmem p (List.mem_cons_of_mem _ hp)⟩
      constructor
      · simp only [List.map_cons, List.nodup_cons]
        refine ⟨?_, ihg.1⟩
        rw [addToGroup_keys]
        by_cases hm : k ∈ rest.map Prod.fst
        · rw [if_pos hm]
          exact hnd.1
        · rw [if_neg hm]
          simp only [List.mem_append, List.mem_singleton]
          rintro (hc | hc)
          · exact hnd.1 hc
          · exact hk hc
      · intro p hp
        rcases List.mem_cons.mp hp with h1 | h2
        · subst h1
          exact hmem (k1, l) (List.mem_cons_self _ _)
        · exact ihg.2 p h2

/-- The `forecasts_by_day` grouping satisfies the invariant. -/
theorem groupByDay_good (items : List FItem) :
    GoodGroups (TestingKp.groupByDay items) := by
  suffices h : ∀ (l : List FItem) (g : List (ℕ × List FItem)), GoodGroups g →
      GoodGroups (l.foldl (fun g2 it => TestingKp.addToGroup g2 (fDay it) it) g) by
    exact h items [] ⟨by simp, by simp⟩
  intro l
  induction l with
  | nil => intro g hg; exact hg
  | cons it rest ih =>
    intro g hg
    exact ih _ (addToGroup_good g (fDay it) it rfl hg)

/-- Python `min` over a running best stays within the candidates. -/
theorem pyMinBy_mem (f : FItem → ℕ) (b : FItem) (l : List FItem) :
    TestingKp.pyMinBy f b l ∈ b :: l := by
  induction l generalizing b with
  | nil => simp [TestingKp.pyMinBy]
  | cons x rest ih =>
    unfold TestingKp.pyMinBy
    by_cases hc : f x < f b
    · rw [if_pos hc]
      rcases List.mem_cons.mp (ih x) with h1 | h2
      · rw [h1]; simp
      · exact List.mem_cons_of_mem _ (List.mem_cons_of_mem _ h2)
    · rw [if_neg hc]
      rcases List.mem_cons.mp (ih b) with h1 | h2
      · rw [h1]; simp
      · exact List.mem_cons_of_mem _ (List.mem_cons_of_mem _ h2)

/-- Python `min` returns an element of the list. -/
theorem pyMin_mem (f : FItem → ℕ) (l : List FItem) (x : FItem)
    (h : TestingKp.pyMin f l = some x) : x ∈ l := by
  cases l with
  | nil => simp [TestingKp.pyMin] at h
  | cons a rest =>
    simp only [TestingKp.pyMin, Option.some.injEq] at h
    subst h
    exact pyMinBy_mem f a rest

/-- Selecting the 2-PM-closest forecast of each day turns the day keys into
the forecast days, one per group. -/
theorem filterMap_pyMin_days (ts : List (ℕ × List FItem))
    (h : ∀ p ∈ ts, p.2 ≠ [] ∧ ∀ it ∈ p.2, fDay it = p.1) :
    (ts.filterMap (fun p => TestingKp.pyMin TestingKp.hourKey p.2)).map fDay =
      ts.map Prod.fst := by
  induction ts with
  | nil => rfl
  | cons p rest ih =>
    obtain ⟨hne, hday⟩ := h p (List.mem_cons_self _ _)
    obtain ⟨x, hx⟩ : ∃ x, TestingKp.pyMin TestingKp.hourKey p.2 = some x := by
      cases hl : p.2 with
      | nil => exact absurd hl hne
      | cons a r2 => exact ⟨_, rfl⟩
    simp only [List.filterMap_cons, hx, List.map_cons]
    rw [ih (fun q hq => h q (List.mem_cons_of_mem _ hq))]
    have hdx : fDay x = p.1 := hday x (pyMin_mem _ _ _ hx)
    rw [hdx]

/-- The `testing_kp.py` selection returns at most `days` forecasts with
pairwise-distinct days (for a nonnegative `days`). -/
theorem tkSelect_spec (items : List FItem) (d : Int) (hd : 0 ≤ d) :
    (TestingKp.tkSelect items d).length ≤ d.toNat ∧
    ((TestingKp.tkSelect items d).map fDay).Nodup := by
  have hg := groupByDay_good items
  have hperm : List.Perm (List.insertionSort TestingKp.keyLE (TestingKp.groupByDay items))
      (TestingKp.groupByDay items) := List.perm_insertionSort _ _
  have hsortgood : GoodGroups
      (List.insertionSort TestingKp.keyLE (TestingKp.groupByDay items)) := by
    constructor
    · exact ((hperm.map Prod.fst).nodup_iff).mpr hg.1
    · intro p hp
      exact hg.2 p (hperm.mem_iff.mp hp)
  have htake : pyTake d
      (List.insertionSort TestingKp.keyLE (TestingKp.groupByDay items)) =
      (List.insertionSort TestingKp.keyLE (TestingKp.groupByDay items)).take d.toNat := by
    unfold pyTake
    rw [if_pos hd]
  have htgood : GoodGroups
      ((List.insertionSort TestingKp.keyLE (TestingKp.groupByDay items)).take d.toNat) := by
    constructor
    · exact List.Nodup.sublist ((List.take_sublist _ _).map Prod.fst) hsortgood.1
    · intro p hp
      exact hsortgood.2 p (List.mem_of_mem_take hp)
  unfold TestingKp.tkSelect
  rw [htake]
  constructor
  · have hlen := congrArg List.length (filterMap_pyMin_days _ htgood.2)
    simp only [List.length_map] at hlen
    rw [hlen]
    exact List.length_take_le _ _
  · rw [filterMap_pyMin_days _ htgood.2]
    exact htgood.1

/-- The Ollama/demo selection loop keeps its accumulated days distinct and
never exceeds `days` entries once started below the bound. -/
theorem ollamaSelect_spec (days : Int) :
    ∀ (items : List FItem) (processed : List ℕ) (acc : List FItem),
      (acc.map fDay).Nodup → (∀ x ∈ acc, fDay x ∈ processed) →
      ((acc.length : Int) < days) →
      ((OllamaWeather.ollamaSelect days items processed acc).map fDay).Nodup ∧
      ((OllamaWeather.ollamaSelect days items processed acc).length : Int) ≤ days := by
  intro items
  induction items with
  | nil =>
    intro processed acc h1 h2 h3
    exact ⟨h1, le_of_lt h3⟩
  | cons it rest ih =>
    intro processed acc h1 h2 h3
    unfold OllamaWeather.ollamaSelect
    by_cases hgd : fDay it ∉ processed ∧ 12 ≤ fHour it
    · rw [if_pos hgd]
      have hnodup1 : ((acc ++ [it]).map fDay).Nodup := by
        rw [List.map_append, List.nodup_append]
        refine ⟨h1, by simp, ?_⟩
        intro a ha hb
        simp only [List.map_cons, List.map_nil, List.mem_singleton] at hb
        subst hb
        obtain ⟨x, hx, hfx⟩ := List.mem_map.mp ha
        exact hgd.1 (hfx ▸ h2 x hx)
      by_cases hstop : days ≤ ((acc ++ [it]).length : Int)
      · rw [if_pos hstop]
        refine ⟨hnodup1, ?_⟩
        simp only [List.length_append, List.length_singleton] at h3 hstop ⊢
        push_cast at h3 hstop ⊢
        omega
      · rw [if_neg hstop]
        apply ih
        · exact hnodup1
        · intro x hx
          rcases List.mem_append.mp hx with hx1 | hx2
          · exact List.mem_cons_of_mem _ (h2 x hx1)
          · simp only [List.mem_singleton] at hx2
            subst hx2
            exact List.mem_cons_self _ _
        · omega
    · rw [if_neg hgd]
      exact ih processed acc h1 h2 h3

/-- C3 counterexample.  The claim says `days` is clamped into [1,5].  With no
API key and `days = 6`, `get_weather_forecast` returns six forecast entries:
nothing clamps the argument. -/
theorem c3_forecast_no_clamp_cex :
    TestingKp.get_weather_forecast (.s "Paris") (.i 6) egForecastEnvNoKey =
      .ok (simForecastResult (.s "Paris") 6 egForecastEnvNoKey, 0) ∧
    forecastCount (simForecastResult (.s "Paris") 6 egForecastEnvNoKey) = 6 ∧
    ¬ (forecastCount (simForecastResult (.s "Paris") 6 egForecastEnvNoKey) ≤ 5) := by
  refine ⟨rfl, rfl, ?_⟩
  decide

/-- C3 (amended): `get_weather_forecast` never clamps `days`.  With no API
key both variants return exactly `days` simulated entries (one per distinct
consecutive calendar date — more than 5 when `days > 5`); with a key, the
`testing_kp.py` variant returns at most `days` entries (for `days ≥ 0`) and
the Ollama/demo variant at most `days` entries (for `days ≥ 1`), in both
cases at most one entry per distinct calendar date. -/
theorem c3_forecast_no_clamp :
    (∀ (location : JVal) (d : Int) (env : ForecastEnv),
        noValidKey env.key = true → 0 ≤ d →
        TestingKp.get_weather_forecast location (.i d) env =
          .ok (simForecastResult location d env, 0) ∧
        OllamaWeather.get_weather_forecast location (.i d) env =
          .ok (simForecastResult location d env, 0) ∧
        forecastCount (simForecastResult location d env) = d.toNat ∧
        (forecastDates (simForecastResult location d env)).Nodup) ∧
    (∀ (location : JVal) (d : Int) (env : ForecastEnv) name country lat lon items,
        noValidKey env.key = false → 0 ≤ d →
        env.net = .ok name country lat lon items →
        ∃ r, TestingKp.get_weather_forecast location (.i d) env = .ok (r, 1) ∧
          statusStr r = some "success" ∧
          forecastCount r ≤ d.toNat ∧ (forecastDates r).Nodup) ∧
    (∀ (location : JVal) (d : Int) (env : ForecastEnv) name country lat lon items,
        noValidKey env.key = false → 1 ≤ d →
        env.net = .ok name country lat lon items →
        ∃ r, OllamaWeather.get_weather_forecast location (.i d) env = .ok (r, 1) ∧
          statusStr r = some "success" ∧
          forecastCount r ≤ d.toNat ∧ (forecastDates r).Nodup) := by
  refine ⟨?_, ?_, ?_⟩
  · intro location d env hk hd
    refine ⟨?_, ?_, ?_, ?_⟩
    · unfold TestingKp.get_weather_forecast
      rw [if_pos hk]
    · unfold OllamaWeather.get_weather_forecast
      rw [if_pos hk]
    · show ((List.range d.toNat).map (simForecast env)).length = d.toNat
      simp
    · show (((List.range d.toNat).map (simForecast env)).filterMap entryDate).Nodup
      rw [List.filterMap_map]
      have hcomp : entryDate ∘ simForecast env =
          some ∘ (fun i => JVal.i (Int.ofNat (env.baseDay + i))) :=
        funext fun i => rfl
      rw [hcomp, List.filterMap_eq_map]
      apply List.Nodup.map
      · intro a b hab
        injection hab with h2
        injection h2 with h3
        omega
      · exact List.nodup_range _
  · intro location d env name country lat lon items hk hd hn
    refine ⟨[("location", .s (name ++ ", " ++ country)),
             ("coordinates", .obj [("lat", .q lat), ("lon", .q lon)]),
             ("forecasts", .arr ((TestingKp.tkSelect items d).map TestingKp.mkTkForecast)),
             ("status", .s "success"),
             ("forecast_count", .i (Int.ofNat (TestingKp.tkSelect items d).length)),
             ("api_forecast_count", .i (Int.ofNat items.length))], ?_, rfl, ?_, ?_⟩
    · unfold TestingKp.get_weather_forecast
      rw [if_neg (by simp [hk]), hn]
    · show ((TestingKp.tkSelect items d).map TestingKp.mkTkForecast).length ≤ d.toNat
      rw [List.length_map]
      exact (tkSelect_spec items d hd).1
    · show (((TestingKp.tkSelect items d).map TestingKp.mkTkForecast).filterMap
          entryDate).Nodup
      rw [List.filterMap_map]
      have hcomp : entryDate ∘ TestingKp.mkTkForecast =
          some ∘ (fun it => JVal.i (Int.ofNat (fDay it))) :=
        funext fun it => rfl
      rw [hcomp, List.filterMap_eq_map]
      have h2 : (TestingKp.tkSelect items d).map (fun it => JVal.i (Int.ofNat (fDay it))) =
          ((TestingKp.tkSelect items d).map fDay).map (fun n => JVal.i (Int.ofNat n)) := by
        rw [List.map_map]
        rfl
      rw [h2]
      apply List.Nodup.map
      · intro a b hab
        injection hab with h3
        injection h3 with h4
      · exact (tkSelect_spec items d hd).2
  · intro location d env name country lat lon items hk hd hn
    have hsel := ollamaSelect_spec d (pyTake (d * 8) items) [] [] (by simp)
      (by simp) (by simp only [List.length_nil, Nat.cast_zero]; omega)
    refine ⟨[("location", .s (name ++ ", " ++ country)),
             ("forecasts", .arr ((OllamaWeather.ollamaSelect d (pyTake (d * 8) items)
                [] []).map OllamaWeather.mkOllamaForecast)),
             ("status", .s "success")], ?_, rfl, ?_, ?_⟩
    · unfold OllamaWeather.get_weather_forecast
      rw [if_neg (by simp [hk]), hn]
    · show ((OllamaWeather.ollamaSelect d (pyTake (d * 8) items) [] []).map
          OllamaWeather.mkOllamaForecast).length ≤ d.toNat
      rw [List.length_map]
      have h5 := hsel.2
      omega
    · show (((OllamaWeather.ollamaSelect d (pyTake (d * 8) items) [] []).map
          OllamaWeather.mkOllamaForecast).filterMap entryDate).Nodup
      rw [List.filterMap_map]
      have hcomp : entryDate ∘ OllamaWeather.mkOllamaForecast =
          some ∘ (fun it => JVal.i (Int.ofNat (fDay it))) :=
        funext fun it => rfl
      rw [hcomp, List.filterMap_eq_map]
      have h2 : (OllamaWeather.ollamaSelect d (pyTake (d * 8) items) [] []).map
            (fun it => JVal.i (Int.ofNat (fDay it))) =
          ((OllamaWeather.ollamaSelect d (pyTake (d * 8) items) [] []).map fDay).map
            (fun n => JVal.i (Int.ofNat n)) := by
        rw [List.map_map]
        rfl
      rw [h2]
      apply List.Nodup.map
      · intro a b hab
        injection hab with h3
        injection h3 with h4
      · exact hsel.1

/-- C3 witness: the simulated branch at `days = 3`, and both API branches at
`days = 2` over a two-day response list. -/
theorem c3_forecast_no_clamp_witness :
    noValidKey egForecastEnvNoKey.key = true ∧
    noValidKey egForecastEnvKey.key = false ∧
    egForecastEnvKey.net = .ok "Paris" "FR" 48 2 egForecastItems ∧
    (TestingKp.get_weather_forecast (.s "Paris") (.i 3) egForecastEnvNoKey =
        .ok (simForecastResult (.s "Paris") 3 egForecastEnvNoKey, 0) ∧
      OllamaWeather.get_weather_forecast (.s "Paris") (.i 3) egForecastEnvNoKey =
        .ok (simForecastResult (.s "Paris") 3 egForecastEnvNoKey, 0) ∧
      forecastCount (simForecastResult (.s "Paris") 3 egForecastEnvNoKey) =
        (3 : Int).toNat ∧
      (forecastDates (simForecastResult (.s "Paris") 3 egForecastEnvNoKey)).Nodup) ∧
    (∃ r, TestingKp.get_weather_forecast (.s "Paris") (.i 2) egForecastEnvKey =
        .ok (r, 1) ∧ statusStr r = some "success" ∧
        forecastCount r ≤ (2 : Int).toNat ∧ (forecastDates r).Nodup) ∧
    (∃ r, OllamaWeather.get_weather_forecast (.s "Paris") (.i 2) egForecastEnvKey =
        .ok (r, 1) ∧ statusStr r = some "success" ∧
        forecastCount r ≤ (2 : Int).toNat ∧ (forecastDates r).Nodup) := by
  have h := c3_forecast_no_clamp
  exact ⟨rfl, rfl, rfl,
    h.1 (.s "Paris") 3 egForecastEnvNoKey rfl (by decide),
    h.2.1 (.s "Paris") 2 egForecastEnvKey "Paris" "FR" 48 2 egForecastItems rfl
      (by decide) rfl,
    h.2.2 (.s "Paris") 2 egForecastEnvKey "Paris" "FR" 48 2 egForecastItems rfl
      (by decide) rfl⟩

end GptOssSpec
